import Mathlib

/-!
Hike: a shallow embedding of `main.cpp`.

`main.cpp` opens a window, creates a Vulkan instance, registers a diagnostics
messenger, creates a surface, selects a physical device and opens a logical
device; then it polls events until the window closes and tears everything down.

The embedding is state passing.  The C++ object `HelloTriangleApplication` is a
record of handles; the process around it carries the chronological list of calls
made into GLFW and Vulkan and the text written to the standard streams.  All
answers of the outside world (what GLFW and the Vulkan driver return) are
collected in one record, `Env`, which the functions only read.

A C++ function `void f()` that may throw becomes
`f : Env → Process → Except Exception Unit × Process`: the second component is
the process state at the point where the function returned or threw.
-/

namespace Hike

/-! ## Values of the Vulkan and GLFW headers used by the program -/

/-- In `vulkan_core.h`, `VkBool32` is a `uint32_t`; C++ converts it to `bool`
by comparing with zero. -/
abbrev VkBool32 := Nat

/-- The header value `VK_FALSE`. -/
def VK_FALSE : VkBool32 := 0

/-- The header value `VK_TRUE`. -/
def VK_TRUE : VkBool32 := 1

/-- In `vulkan_core.h`, `VkResult` is a signed enumeration. -/
abbrev VkResult := Int

/-- The header value `VK_SUCCESS`. -/
def VK_SUCCESS : VkResult := 0

/-- The header value `VK_ERROR_EXTENSION_NOT_PRESENT`. -/
def VK_ERROR_EXTENSION_NOT_PRESENT : VkResult := -7

/-- The header value `VK_QUEUE_GRAPHICS_BIT` of `VkQueueFlagBits`. -/
def VK_QUEUE_GRAPHICS_BIT : Nat := 0x00000001

/-- The header string `VK_KHR_SWAPCHAIN_EXTENSION_NAME`. -/
def VK_KHR_SWAPCHAIN_EXTENSION_NAME : String := "VK_KHR_swapchain"

/-- The header string `VK_EXT_DEBUG_UTILS_EXTENSION_NAME`. -/
def VK_EXT_DEBUG_UTILS_EXTENSION_NAME : String := "VK_EXT_debug_utils"

/-- The enumeration `VkPhysicalDeviceType` of `vulkan_core.h`, constructors in
the header's order (`VK_PHYSICAL_DEVICE_TYPE_OTHER = 0`, ...). -/
inductive VkPhysicalDeviceType where
  | VK_PHYSICAL_DEVICE_TYPE_OTHER
  | VK_PHYSICAL_DEVICE_TYPE_INTEGRATED_GPU
  | VK_PHYSICAL_DEVICE_TYPE_DISCRETE_GPU
  | VK_PHYSICAL_DEVICE_TYPE_VIRTUAL_GPU
  | VK_PHYSICAL_DEVICE_TYPE_CPU
  deriving DecidableEq, Repr

/-- Every Vulkan or GLFW handle (`VkInstance`, `VkPhysicalDevice`,
`GLFWwindow*`, ...) is a machine word. -/
abbrev Handle := Nat

/-- The header value `VK_NULL_HANDLE`. -/
def VK_NULL_HANDLE : Handle := 0

/-- A C string (`const char*` to a NUL-terminated array) is represented by the
characters before the terminator, so `strcmp(a, b) == 0` is equality of the
representations. -/
abbrev CString := String

/-- The test `strcmp(a, b) == 0`. -/
def strcmpEqZero (a b : CString) : Bool := a == b

/-! ## Globals of `main.cpp` (lines 14-29) -/

/-- The constant `WIDTH`. -/
def WIDTH : Nat := 800

/-- The constant `HEIGHT`. -/
def HEIGHT : Nat := 600

/-- The global `validationLayers`. -/
def validationLayers : List CString := ["VK_LAYER_KHRONOS_validation"]

/-- The global `deviceExtensions`. -/
def deviceExtensions : List CString := [VK_KHR_SWAPCHAIN_EXTENSION_NAME]

/-! ## Exceptions -/

/-- The two kinds of exception the program can raise: `std::runtime_error`
with its message, and the `std::bad_optional_access` of
`std::optional::value()`. -/
inductive Exception where
  | runtime_error (what : String)
  | bad_optional_access
  deriving DecidableEq, Repr

/-! ## Data model (lines 57-70) -/

/-- The struct `QueueFamilyIndices`: two `std::optional<uint32_t>`. -/
structure QueueFamilyIndices where
  graphicsFamily : Option Nat := none
  surfaceFamily : Option Nat := none
  deriving DecidableEq, Repr

/-- The member function `QueueFamilyIndices::isComplete`. -/
def QueueFamilyIndices.isComplete (self : QueueFamilyIndices) : Bool :=
  self.graphicsFamily.isSome && self.surfaceFamily.isSome

/-- The member function `std::optional<uint32_t>::value()`: the contained value, or
`std::bad_optional_access`. -/
def optionalValue (o : Option Nat) : Except Exception Nat :=
  match o with
  | some v => .ok v
  | none => .error .bad_optional_access

/-- The struct `SwapChainDetails`.  Surface formats and present modes are
kept as the numeric codes of their enumerations; the capabilities record is
kept as one uninterpreted word, since the program never reads it. -/
structure SwapChainDetails where
  capabilities : Nat
  formats : List Nat
  presents : List Nat
  deriving DecidableEq, Repr

/-- The part of `VkQueueFamilyProperties` the program reads. -/
structure VkQueueFamilyProperties where
  queueFlags : Nat
  deriving DecidableEq, Repr

/-- One `VkDeviceQueueCreateInfo` as filled in by `createLogicalDevice`;
`pQueuePriorities` points at the single float `queuePriority`, kept here by
value. -/
structure VkDeviceQueueCreateInfo where
  queueFamilyIndex : Nat
  queueCount : Nat
  pQueuePriorities : Rat
  deriving DecidableEq, Repr

/-- The `VkDeviceCreateInfo` as filled in by `createLogicalDevice`.
`pEnabledFeatures` points at a zero-initialised `VkPhysicalDeviceFeatures`,
kept as the list of features switched on. -/
structure VkDeviceCreateInfo where
  pQueueCreateInfos : List VkDeviceQueueCreateInfo
  queueCreateInfoCount : Nat
  enabledLayerCount : Nat
  ppEnabledLayerNames : List CString
  enabledExtensionCount : Nat
  ppEnabledExtensionNames : List CString
  pEnabledFeatures : List String
  deriving DecidableEq, Repr

/-- The `VkDebugUtilsMessengerCreateInfoEXT` built by
`getDebugMessengerCreateInfo`: severity and type masks by the names of their
bits, the callback by name, and whether `pUserData` is null. -/
structure VkDebugUtilsMessengerCreateInfoEXT where
  messageSeverity : List String
  messageType : List String
  pfnUserCallback : String
  pUserDataIsNull : Bool
  deriving DecidableEq, Repr

/-- The `VkInstanceCreateInfo` built by `createInstance`, together with the
`VkApplicationInfo` it points to (its two names). -/
structure VkInstanceCreateInfo where
  pApplicationName : String
  pEngineName : String
  enabledLayerCount : Nat
  ppEnabledLayerNames : List CString
  enabledExtensionCount : Nat
  ppEnabledExtensionNames : List CString
  pNext : Option VkDebugUtilsMessengerCreateInfoEXT
  deriving DecidableEq, Repr

/-! ## The outside world -/

/-- What the driver answers about one physical device: the fields of
`VkPhysicalDeviceProperties` and `VkPhysicalDeviceFeatures` the program reads,
the queue-family records, presentation support per queue-family index for the
bound surface, the device extension names, and the surface query results. -/
structure PhysicalDeviceAnswers where
  deviceName : CString
  deviceType : VkPhysicalDeviceType
  geometryShader : VkBool32
  queueFamilies : List VkQueueFamilyProperties
  surfaceSupported : Nat → VkBool32
  extensionNames : List CString
  capabilities : Nat
  formats : List Nat
  presents : List Nat

/-- Everything the program reads from outside itself.
`enableValidationLayers` is the build switch of lines 25-29 (`NDEBUG`); the
other fields are the answers of GLFW and of the Vulkan loader and driver. -/
structure Env where
  enableValidationLayers : Bool
  /-- Result of `glfwCreateWindow`. -/
  windowHandle : Handle
  /-- Result of `glfwGetRequiredInstanceExtensions`. -/
  glfwExtensions : List CString
  /-- The `layerName` fields from `vkEnumerateInstanceLayerProperties`. -/
  layers : List CString
  /-- The `extensionName` fields from `vkEnumerateInstanceExtensionProperties`. -/
  instanceExtensions : List CString
  /-- Status of `vkCreateInstance` for a given create-info. -/
  vkCreateInstanceResult : VkInstanceCreateInfo → VkResult
  /-- Handle written by a successful `vkCreateInstance`. -/
  instanceHandle : Handle
  /-- Whether `vkGetInstanceProcAddr` finds `vkCreateDebugUtilsMessengerEXT`. -/
  hasCreateMessengerProc : Bool
  /-- Status of the loaded `vkCreateDebugUtilsMessengerEXT`. -/
  createMessengerResult : VkResult
  /-- Handle written by a successful `vkCreateDebugUtilsMessengerEXT`. -/
  messengerHandle : Handle
  /-- Whether `vkGetInstanceProcAddr` finds `vkDestroyDebugUtilsMessengerEXT`. -/
  hasDestroyMessengerProc : Bool
  /-- Status of `glfwCreateWindowSurface`. -/
  createSurfaceResult : VkResult
  /-- Handle written by a successful `glfwCreateWindowSurface`. -/
  surfaceHandle : Handle
  /-- Handles written by `vkEnumeratePhysicalDevices`, in enumeration order. -/
  physicalDevices : List Handle
  /-- The driver's answers about each physical device. -/
  answers : Handle → PhysicalDeviceAnswers
  /-- Status of `vkCreateDevice`. -/
  vkCreateDeviceResult : Handle → VkDeviceCreateInfo → VkResult
  /-- Handle written by a successful `vkCreateDevice`. -/
  deviceHandle : Handle
  /-- Handle written by `vkGetDeviceQueue` for a device, family and index. -/
  queueHandle : Handle → Nat → Nat → Handle
  /-- Number of times `glfwWindowShouldClose` answers false before it answers
  true. -/
  pollsBeforeClose : Nat

/-- One call into GLFW or Vulkan, with the arguments that identify it. -/
inductive ApiCall where
  | glfwInit
  | glfwWindowHint (hint value : String)
  | glfwCreateWindow (width height : Nat) (title : String)
  | glfwWindowShouldClose (window : Handle)
  | glfwPollEvents
  | glfwDestroyWindow (window : Handle)
  | glfwTerminate
  | glfwGetRequiredInstanceExtensions
  | glfwCreateWindowSurface (inst window : Handle)
  | vkGetInstanceProcAddr (inst : Handle) (name : String)
  | vkEnumerateInstanceLayerProperties
  | vkEnumerateInstanceExtensionProperties
  | vkCreateInstance (createInfo : VkInstanceCreateInfo)
  | vkCreateDebugUtilsMessengerEXT (inst : Handle) (createInfo : VkDebugUtilsMessengerCreateInfoEXT)
  | vkDestroyDebugUtilsMessengerEXT (inst messenger : Handle)
  | vkEnumeratePhysicalDevices (inst : Handle)
  | vkGetPhysicalDeviceProperties (physicalDevice : Handle)
  | vkGetPhysicalDeviceFeatures (physicalDevice : Handle)
  | vkGetPhysicalDeviceQueueFamilyProperties (physicalDevice : Handle)
  | vkGetPhysicalDeviceSurfaceSupportKHR (physicalDevice : Handle) (queueFamilyIndex : Nat) (surface : Handle)
  | vkEnumerateDeviceExtensionProperties (physicalDevice : Handle)
  | vkGetPhysicalDeviceSurfaceCapabilitiesKHR (physicalDevice surface : Handle)
  | vkGetPhysicalDeviceSurfaceFormatsKHR (physicalDevice surface : Handle)
  | vkGetPhysicalDeviceSurfacePresentModesKHR (physicalDevice surface : Handle)
  | vkCreateDevice (physicalDevice : Handle) (createInfo : VkDeviceCreateInfo)
  | vkGetDeviceQueue (device : Handle) (queueFamilyIndex queueIndex : Nat)
  | vkDestroyDevice (device : Handle)
  | vkDestroySurfaceKHR (inst surface : Handle)
  | vkDestroyInstance (inst : Handle)
  deriving DecidableEq, Repr

/-- The data members of the class `HelloTriangleApplication` (lines 82-89).
The member `instance` is spelled `vkInstance`. -/
structure HelloTriangleApplication where
  window : Handle
  vkInstance : Handle
  debugMessenger : Handle
  surface : Handle
  physicalDevice : Handle
  device : Handle
  graphicsQueue : Handle
  surfaceQueue : Handle
  deriving DecidableEq, Repr

/-- The application object as its implicit constructor leaves it: the four
members with a default member initialiser hold `VK_NULL_HANDLE`; the other four
are not initialised and hold whatever `w`, `i`, `m`, `s` happen to be. -/
def HelloTriangleApplication.fresh (w i m s : Handle) : HelloTriangleApplication :=
  { window := w, vkInstance := i, debugMessenger := m, surface := s,
    physicalDevice := VK_NULL_HANDLE, device := VK_NULL_HANDLE,
    graphicsQueue := VK_NULL_HANDLE, surfaceQueue := VK_NULL_HANDLE }

/-- The running process: the application object, the calls made so far into
GLFW and Vulkan (oldest first), and the text written so far to `std::cerr` and
`std::cout`. -/
structure Process where
  app : HelloTriangleApplication
  calls : List ApiCall
  cerr : String
  cout : String
  deriving DecidableEq, Repr

/-- Record one call into GLFW or Vulkan. -/
def Process.call (s : Process) (c : ApiCall) : Process :=
  { s with calls := s.calls ++ [c] }

/-- The effect of `std::cerr << text`. -/
def Process.writeCerr (s : Process) (text : String) : Process :=
  { s with cerr := s.cerr ++ text }

/-- The effect of `std::cout << text`. -/
def Process.writeCout (s : Process) (text : String) : Process :=
  { s with cout := s.cout ++ text }

/-! ## Diagnostics messenger helpers (lines 31-55, 126-142, 268-276) -/

/-- The free function `CreateDebugUtilsMessengerEXT` (lines 31-44): look the
entry point up, call it when it exists, answer
`VK_ERROR_EXTENSION_NOT_PRESENT` otherwise.  The second component is the handle
written through `pDebugMessenger`, if any. -/
def CreateDebugUtilsMessengerEXT (env : Env) (inst : Handle)
    (pCreateInfo : VkDebugUtilsMessengerCreateInfoEXT) (s : Process) :
    (VkResult × Option Handle) × Process :=
  let s1 := s.call (.vkGetInstanceProcAddr inst "vkCreateDebugUtilsMessengerEXT")
  if env.hasCreateMessengerProc then
    let s2 := s1.call (.vkCreateDebugUtilsMessengerEXT inst pCreateInfo)
    if env.createMessengerResult = VK_SUCCESS then
      ((env.createMessengerResult, some env.messengerHandle), s2)
    else
      ((env.createMessengerResult, none), s2)
  else
    ((VK_ERROR_EXTENSION_NOT_PRESENT, none), s1)

/-- The free function `DestroyDebugUtilsMessengerEXT` (lines 46-55). -/
def DestroyDebugUtilsMessengerEXT (env : Env) (inst debugMessenger : Handle)
    (s : Process) : Process :=
  let s1 := s.call (.vkGetInstanceProcAddr inst "vkDestroyDebugUtilsMessengerEXT")
  if env.hasDestroyMessengerProc then
    s1.call (.vkDestroyDebugUtilsMessengerEXT inst debugMessenger)
  else
    s1

/-- The part of `VkDebugUtilsMessengerCallbackDataEXT` the callback reads. -/
structure VkDebugUtilsMessengerCallbackDataEXT where
  pMessage : CString
  deriving DecidableEq, Repr

/-- The static member `debugCallback` (lines 268-276).  `std::endl` writes a
newline. -/
def debugCallback (messageSeverity : Nat) (messageType : Nat)
    (pCallbackData : VkDebugUtilsMessengerCallbackDataEXT) (pUserData : Handle)
    (s : Process) : VkBool32 × Process :=
  let _ := messageSeverity
  let _ := messageType
  let _ := pUserData
  (VK_FALSE, s.writeCerr ("Validation Layer: " ++ pCallbackData.pMessage ++ "\n"))

/-- The member `getDebugMessengerCreateInfo` (lines 126-142). -/
def getDebugMessengerCreateInfo : VkDebugUtilsMessengerCreateInfoEXT :=
  { messageSeverity :=
      ["VK_DEBUG_UTILS_MESSAGE_SEVERITY_WARNING_BIT_EXT",
       "VK_DEBUG_UTILS_MESSAGE_SEVERITY_ERROR_BIT_EXT"],
    messageType :=
      ["VK_DEBUG_UTILS_MESSAGE_TYPE_GENERAL_BIT_EXT",
       "VK_DEBUG_UTILS_MESSAGE_TYPE_VALIDATION_BIT_EXT",
       "VK_DEBUG_UTILS_MESSAGE_TYPE_PERFORMANCE_BIT_EXT"],
    pfnUserCallback := "debugCallback",
    pUserDataIsNull := true }

/-! ## Instance creation (lines 144-266) -/

/-- The outer loop of `checkValidationLayersSupported` (lines 251-263) over the
requested layers still to check.  The inner loop, which sets `layerSupported`
at the first host layer with an equal name, is `List.any`. -/
def checkValidationLayersSupportedLoop (layers : List CString) :
    List CString → Process → Bool × Process
  | [], s => (true, s)
  | requestedLayer :: rest, s =>
    let layerSupported := layers.any (fun layer => strcmpEqZero requestedLayer layer)
    if !layerSupported then
      (false, s.writeCerr ("Validation Layer " ++ requestedLayer ++ " not supported" ++ "\n"))
    else
      checkValidationLayersSupportedLoop layers rest s

/-- The member `checkValidationLayersSupported` (lines 238-266). -/
def checkValidationLayersSupported (env : Env) (verbose : Bool) (s : Process) :
    Bool × Process :=
  let s1 := s.call .vkEnumerateInstanceLayerProperties
  let s2 := s1.call .vkEnumerateInstanceLayerProperties
  let layers := env.layers
  let s3 :=
    if verbose then
      ((s2.writeCout "Available Validation Layers: [\n").writeCout
        (String.join (layers.map (fun layer => "\t" ++ layer ++ "\n")))).writeCout "]\n"
    else s2
  checkValidationLayersSupportedLoop layers validationLayers s3

/-- The member `getRequiredExtensions` (lines 202-212). -/
def getRequiredExtensions (env : Env) (s : Process) : List CString × Process :=
  let s1 := s.call .glfwGetRequiredInstanceExtensions
  let requiredExtensions := env.glfwExtensions
  if env.enableValidationLayers then
    (requiredExtensions ++ [VK_EXT_DEBUG_UTILS_EXTENSION_NAME], s1)
  else
    (requiredExtensions, s1)

/-- The outer loop of `checkExtensionsSupported` (lines 221-233). -/
def checkExtensionsSupportedLoop (availableExtensions : List CString) :
    List CString → Process → Bool × Process
  | [], s => (true, s)
  | extension :: rest, s =>
    let extensionSupported :=
      availableExtensions.any (fun availableExtension => strcmpEqZero availableExtension extension)
    if !extensionSupported then
      (false, s.writeCerr ("Extension " ++ extension ++ " not supported" ++ "\n"))
    else
      checkExtensionsSupportedLoop availableExtensions rest s

/-- The member `checkExtensionsSupported` (lines 214-236). -/
def checkExtensionsSupported (env : Env) (extensions : List CString) (s : Process) :
    Bool × Process :=
  let s1 := s.call .vkEnumerateInstanceExtensionProperties
  let s2 := s1.call .vkEnumerateInstanceExtensionProperties
  checkExtensionsSupportedLoop env.instanceExtensions extensions s2

/-- The create-info that `createInstance` hands to `vkCreateInstance`
(lines 154-176).  The casts to `uint32_t` are reductions modulo `2^32`. -/
def instanceCreateInfo (env : Env) (extensions : List CString) : VkInstanceCreateInfo :=
  let createInfo : VkInstanceCreateInfo :=
    { pApplicationName := "Hello Triangle",
      pEngineName := "No Engine",
      enabledLayerCount := 0,
      ppEnabledLayerNames := [],
      enabledExtensionCount := extensions.length % 2 ^ 32,
      ppEnabledExtensionNames := extensions,
      pNext := none }
  let debugInfo := getDebugMessengerCreateInfo
  if env.enableValidationLayers then
    { createInfo with
      enabledLayerCount := validationLayers.length % 2 ^ 32,
      ppEnabledLayerNames := validationLayers,
      pNext := some debugInfo }
  else createInfo

/-- The member `createInstance` (lines 144-185).  `&&` evaluates its right
operand only when `enableValidationLayers` is true. -/
def createInstance (env : Env) (s : Process) : Except Exception Unit × Process :=
  let (layersBad, s1) :=
    if env.enableValidationLayers then
      let (supported, s1) := checkValidationLayersSupported env false s
      (!supported, s1)
    else (false, s)
  if layersBad then
    (.error (.runtime_error "Validation Layers requeted but not supported."), s1)
  else
    let (extensions, s2) := getRequiredExtensions env s1
    let (extensionsOk, s3) := checkExtensionsSupported env extensions s2
    if !extensionsOk then
      (.error (.runtime_error "GLFW requested extensions not suppoted."), s3)
    else
      let createInfo := instanceCreateInfo env extensions
      let s4 := s3.call (.vkCreateInstance createInfo)
      if env.vkCreateInstanceResult createInfo ≠ VK_SUCCESS then
        (.error (.runtime_error "Failed to create vulkan instance"), s4)
      else
        (.ok (), { s4 with app := { s4.app with vkInstance := env.instanceHandle } })

/-- The member `setupDebugMessenger` (lines 187-194). -/
def setupDebugMessenger (env : Env) (s : Process) : Except Exception Unit × Process :=
  if !env.enableValidationLayers then (.ok (), s)
  else
    let createInfo := getDebugMessengerCreateInfo
    let ((result, written), s1) := CreateDebugUtilsMessengerEXT env s.app.vkInstance createInfo s
    let s2 : Process :=
      match written with
      | some h => { s1 with app := { s1.app with debugMessenger := h } }
      | none => s1
    if result ≠ VK_SUCCESS then
      (.error (.runtime_error "Failed to create debug messenger"), s2)
    else (.ok (), s2)

/-- The member `createSurface` (lines 196-200). -/
def createSurface (env : Env) (s : Process) : Except Exception Unit × Process :=
  let s1 := s.call (.glfwCreateWindowSurface s.app.vkInstance s.app.window)
  if env.createSurfaceResult ≠ VK_SUCCESS then
    (.error (.runtime_error "Failed to create surface."), s1)
  else
    (.ok (), { s1 with app := { s1.app with surface := env.surfaceHandle } })

/-! ## Device selection (lines 278-390) -/

/-- Whether `queueFlags & VK_QUEUE_GRAPHICS_BIT` is non-zero (line 376). -/
def hasGraphicsBit (q : VkQueueFamilyProperties) : Bool :=
  q.queueFlags &&& VK_QUEUE_GRAPHICS_BIT != 0

/-- The `for` loop of `findQueueFamilies` (lines 375-387), entered with loop
counter `i`, the records `queueFamilies[i], queueFamilies[i+1], ...` still to
visit, and the current `indices`.  The result carries the loop counter on exit:
the index of the `break`, or `queueFamilyCount` when the loop ran to its end.
The counter is a `uint32_t` below `queueFamilyCount`, itself a `uint32_t`, so it
never wraps. -/
def findQueueFamiliesLoop (env : Env) (physicalDevice : Handle) :
    List VkQueueFamilyProperties → Nat → QueueFamilyIndices → Process →
      (Nat × QueueFamilyIndices) × Process
  | [], i, indices, s => ((i, indices), s)
  | q :: rest, i, indices, s =>
    let indices1 : QueueFamilyIndices :=
      if hasGraphicsBit q then { indices with graphicsFamily := some i } else indices
    let s1 := s.call (.vkGetPhysicalDeviceSurfaceSupportKHR physicalDevice i s.app.surface)
    let surfaceSupported : VkBool32 := (env.answers physicalDevice).surfaceSupported i
    let indices2 : QueueFamilyIndices :=
      if surfaceSupported != 0 then { indices1 with surfaceFamily := some i } else indices1
    if indices2.isComplete then ((i, indices2), s1)
    else findQueueFamiliesLoop env physicalDevice rest (i + 1) indices2 s1

/-- The member `findQueueFamilies` (lines 367-390). -/
def findQueueFamilies (env : Env) (physicalDevice : Handle) (s : Process) :
    QueueFamilyIndices × Process :=
  let indices : QueueFamilyIndices := {}
  let s1 := s.call (.vkGetPhysicalDeviceQueueFamilyProperties physicalDevice)
  let s2 := s1.call (.vkGetPhysicalDeviceQueueFamilyProperties physicalDevice)
  let queueFamilies := (env.answers physicalDevice).queueFamilies
  let ((_, indices), s3) := findQueueFamiliesLoop env physicalDevice queueFamilies 0 indices s2
  (indices, s3)

/-- The member `deviceExtensionsSupported` (lines 348-365): every name of
`deviceExtensions` is found, by `strcmp`, among the device's extension names. -/
def deviceExtensionsSupported (env : Env) (physicalDevice : Handle) (s : Process) :
    Bool × Process :=
  let s1 := s.call (.vkEnumerateDeviceExtensionProperties physicalDevice)
  let s2 := s1.call (.vkEnumerateDeviceExtensionProperties physicalDevice)
  let extensionProperties := (env.answers physicalDevice).extensionNames
  (deviceExtensions.all (fun extension =>
      extensionProperties.any (fun availableExtensionProperties =>
        strcmpEqZero extension availableExtensionProperties)),
    s2)

/-- The member `supportedSwapChainDetails` (lines 327-346). -/
def supportedSwapChainDetails (env : Env) (physicalDevice : Handle) (s : Process) :
    SwapChainDetails × Process :=
  let surface := s.app.surface
  let s1 := s.call (.vkGetPhysicalDeviceSurfaceCapabilitiesKHR physicalDevice surface)
  let s2 := s1.call (.vkGetPhysicalDeviceSurfaceFormatsKHR physicalDevice surface)
  let s3 := s2.call (.vkGetPhysicalDeviceSurfaceFormatsKHR physicalDevice surface)
  let s4 := s3.call (.vkGetPhysicalDeviceSurfacePresentModesKHR physicalDevice surface)
  let s5 := s4.call (.vkGetPhysicalDeviceSurfacePresentModesKHR physicalDevice surface)
  ({ capabilities := (env.answers physicalDevice).capabilities,
     formats := (env.answers physicalDevice).formats,
     presents := (env.answers physicalDevice).presents },
    s5)

/-- A value of type `const char*`, identified by the object it points into: the
array of a string literal (static storage), or a `char` array member of a local
variable (automatic storage).  Two such pointers are equal exactly when they
point to the same place, whatever characters are stored there; a local variable
and a string literal are different objects. -/
inductive CharPointer where
  | stringLiteral (text : String)
  | localArray (ofVariable member : String)
  deriving DecidableEq, Repr

/-- The member `isDeviceSuitable` (lines 294-325).

Line 304 is `properties.deviceName == "NVIDIA GeForce RTX 3060"`.  In
`vulkan_core.h` the member is `char deviceName[VK_MAX_PHYSICAL_DEVICE_NAME_SIZE]`
and the right operand is a string literal, so both operands are arrays: each
decays to a pointer to its first element and `==` compares the two addresses,
not the characters (C++20 [depr.array.comp]: "same as `&arr1[0] == &arr2[0]`,
does not compare array contents").  The test is therefore between the address
of a member of the local `properties` and the address of the literal; the name
the driver reported, `properties.deviceName` as a string, takes no part in it. -/
def isDeviceSuitable (env : Env) (physicalDevice : Handle) (s : Process) :
    Except Exception Bool × Process :=
  let s1 := s.call (.vkGetPhysicalDeviceProperties physicalDevice)
  let properties := env.answers physicalDevice
  let s2 := s1.call (.vkGetPhysicalDeviceFeatures physicalDevice)
  let features := env.answers physicalDevice
  let (queueFamilyIndices, s3) := findQueueFamilies env physicalDevice s2
  if CharPointer.localArray "properties" "deviceName"
      = CharPointer.stringLiteral "NVIDIA GeForce RTX 3060" then
    (.error (.runtime_error "GPU Name unexpected"), s3)
  else
    let isDiscreteGPU : Bool :=
      properties.deviceType = VkPhysicalDeviceType.VK_PHYSICAL_DEVICE_TYPE_DISCRETE_GPU
    let hasGeometryShader : Bool := features.geometryShader != 0
    let (extensionsSupported, s4) := deviceExtensionsSupported env physicalDevice s3
    let (suitableSwapChain, s5) :=
      if extensionsSupported then
        let (swapChain, s5) := supportedSwapChainDetails env physicalDevice s4
        (decide (swapChain.formats.length > 0) && decide (swapChain.presents.length > 0), s5)
      else (false, s4)
    (.ok (isDiscreteGPU && hasGeometryShader && queueFamilyIndices.isComplete
        && extensionsSupported && suitableSwapChain),
      s5)

/-- The `for` loop of `pickPhysicalDevice` (lines 284-289) over the devices
still to visit.  The value is `true` when the loop body executed its `return`,
`false` when the loop ran to its end. -/
def pickPhysicalDeviceLoop (env : Env) : List Handle → Process → Except Exception Bool × Process
  | [], s => (.ok false, s)
  | device :: rest, s =>
    match isDeviceSuitable env device s with
    | (.error e, s1) => (.error e, s1)
    | (.ok true, s1) => (.ok true, { s1 with app := { s1.app with physicalDevice := device } })
    | (.ok false, s1) => pickPhysicalDeviceLoop env rest s1

/-- The member `pickPhysicalDevice` (lines 278-292). -/
def pickPhysicalDevice (env : Env) (s : Process) : Except Exception Unit × Process :=
  let s1 := s.call (.vkEnumeratePhysicalDevices s.app.vkInstance)
  let s2 := s1.call (.vkEnumeratePhysicalDevices s.app.vkInstance)
  let devices := env.physicalDevices
  match pickPhysicalDeviceLoop env devices s2 with
  | (.error e, s3) => (.error e, s3)
  | (.ok true, s3) => (.ok (), s3)
  | (.ok false, s3) => (.error (.runtime_error "No suitable device found."), s3)

/-! ## Logical device (lines 393-435) -/

/-- Insertion into a `std::set<uint32_t>`, kept as its ascending list of
elements: an element already present is not inserted again. -/
def stdSetInsert (x : Nat) : List Nat → List Nat
  | [] => [x]
  | y :: ys =>
    if x < y then x :: y :: ys
    else if x = y then y :: ys
    else y :: stdSetInsert x ys

/-- Construction of a `std::set<uint32_t>` from an initialiser list: the
elements are inserted one after the other. -/
def stdSetOfList (xs : List Nat) : List Nat :=
  xs.foldl (fun set x => stdSetInsert x set) []

/-- The create-info that `createLogicalDevice` hands to `vkCreateDevice`
(lines 394-427) for the two family indices.  Iterating a `std::set` visits its
elements in ascending order. -/
def deviceCreateInfo (env : Env) (graphicsFamily surfaceFamily : Nat) : VkDeviceCreateInfo :=
  let features : List String := []
  let queuePriority : Rat := 1.0
  let uniqueFamilyIndices := stdSetOfList [graphicsFamily, surfaceFamily]
  let queueCreateInfos : List VkDeviceQueueCreateInfo :=
    uniqueFamilyIndices.map (fun queueFamilyIndex =>
      { queueFamilyIndex := queueFamilyIndex,
        queueCount := 1,
        pQueuePriorities := queuePriority })
  let createInfo : VkDeviceCreateInfo :=
    { pQueueCreateInfos := queueCreateInfos,
      queueCreateInfoCount := queueCreateInfos.length % 2 ^ 32,
      enabledLayerCount := 0,
      ppEnabledLayerNames := [],
      enabledExtensionCount := deviceExtensions.length % 2 ^ 32,
      ppEnabledExtensionNames := deviceExtensions,
      pEnabledFeatures := features }
  if env.enableValidationLayers then
    { createInfo with
      enabledLayerCount := validationLayers.length % 2 ^ 32,
      ppEnabledLayerNames := validationLayers }
  else createInfo

/-- The member `createLogicalDevice` (lines 393-435).  The two `value()` calls
of the initialiser list are evaluated left to right, and again after
`vkCreateDevice`. -/
def createLogicalDevice (env : Env) (s : Process) : Except Exception Unit × Process :=
  let physicalDevice := s.app.physicalDevice
  let (familyIndices, s1) := findQueueFamilies env physicalDevice s
  match optionalValue familyIndices.graphicsFamily with
  | .error e => (.error e, s1)
  | .ok graphicsFamily =>
    match optionalValue familyIndices.surfaceFamily with
    | .error e => (.error e, s1)
    | .ok surfaceFamily =>
      let createInfo := deviceCreateInfo env graphicsFamily surfaceFamily
      let s2 := s1.call (.vkCreateDevice physicalDevice createInfo)
      if env.vkCreateDeviceResult physicalDevice createInfo ≠ VK_SUCCESS then
        (.error (.runtime_error "Failed to create logical device."), s2)
      else
        let s3 : Process := { s2 with app := { s2.app with device := env.deviceHandle } }
        match optionalValue familyIndices.graphicsFamily with
        | .error e => (.error e, s3)
        | .ok g =>
          let s4 := s3.call (.vkGetDeviceQueue s3.app.device g 0)
          let s5 : Process :=
            { s4 with app := { s4.app with graphicsQueue := env.queueHandle s3.app.device g 0 } }
          match optionalValue familyIndices.surfaceFamily with
          | .error e => (.error e, s5)
          | .ok p =>
            let s6 := s5.call (.vkGetDeviceQueue s5.app.device p 0)
            (.ok (),
              { s6 with app := { s6.app with surfaceQueue := env.queueHandle s5.app.device p 0 } })

/-! ## Life cycle (lines 74-124) -/

/-- The member `initWindow` (lines 92-98). -/
def initWindow (env : Env) (s : Process) : Process :=
  let s1 := s.call .glfwInit
  let s2 := s1.call (.glfwWindowHint "GLFW_CLIENT_API" "GLFW_NO_API")
  let s3 := s2.call (.glfwWindowHint "GLFW_RESIZABLE" "GLFW_FALSE")
  let s4 := s3.call (.glfwCreateWindow WIDTH HEIGHT "First Window")
  { s4 with app := { s4.app with window := env.windowHandle } }

/-- The member `initVulkan` (lines 100-106): five steps, the first exception
ends the sequence. -/
def initVulkan (env : Env) (s : Process) : Except Exception Unit × Process :=
  match createInstance env s with
  | (.error e, s1) => (.error e, s1)
  | (.ok (), s1) =>
    match setupDebugMessenger env s1 with
    | (.error e, s2) => (.error e, s2)
    | (.ok (), s2) =>
      match createSurface env s2 with
      | (.error e, s3) => (.error e, s3)
      | (.ok (), s3) =>
        match pickPhysicalDevice env s3 with
        | (.error e, s4) => (.error e, s4)
        | (.ok (), s4) => createLogicalDevice env s4

/-- The loop of `mainLoop` (lines 108-112) when `glfwWindowShouldClose` still
answers false `n` times. -/
def mainLoopFrom (n : Nat) (s : Process) : Process :=
  match n with
  | 0 => s.call (.glfwWindowShouldClose s.app.window)
  | n + 1 =>
    mainLoopFrom n ((s.call (.glfwWindowShouldClose s.app.window)).call .glfwPollEvents)

/-- The member `mainLoop` (lines 108-112). -/
def mainLoop (env : Env) (s : Process) : Process :=
  mainLoopFrom env.pollsBeforeClose s

/-- The member `cleanup` (lines 114-124). -/
def cleanup (env : Env) (s : Process) : Process :=
  let s1 :=
    if env.enableValidationLayers then
      DestroyDebugUtilsMessengerEXT env s.app.vkInstance s.app.debugMessenger s
    else s
  let s2 := s1.call (.vkDestroyDevice s1.app.device)
  let s3 := s2.call (.vkDestroySurfaceKHR s2.app.vkInstance s2.app.surface)
  let s4 := s3.call (.vkDestroyInstance s3.app.vkInstance)
  let s5 := s4.call (.glfwDestroyWindow s4.app.window)
  s5.call .glfwTerminate

/-- The member `run` (lines 74-79). -/
def run (env : Env) (s : Process) : Except Exception Unit × Process :=
  let s1 := initWindow env s
  match initVulkan env s1 with
  | (.error e, s2) => (.error e, s2)
  | (.ok (), s2) =>
    let s3 := mainLoop env s2
    (.ok (), cleanup env s3)

/-! ## Vocabulary for the statements -/

/-- The objects the application owns, and the platform library itself. -/
inductive Resource where
  | platform
  | window
  | vulkanInstance
  | messenger
  | surface
  | logicalDevice
  deriving DecidableEq, Repr

/-- What a call does to the set of live objects: it acquires (creates) one, or
releases (destroys) one. -/
inductive LifecycleEvent where
  | acquire (r : Resource)
  | release (r : Resource)
  deriving DecidableEq, Repr

/-- The object a call creates or destroys, if any. -/
def ApiCall.event : ApiCall → Option LifecycleEvent
  | .glfwInit => some (.acquire .platform)
  | .glfwCreateWindow _ _ _ => some (.acquire .window)
  | .vkCreateInstance _ => some (.acquire .vulkanInstance)
  | .vkCreateDebugUtilsMessengerEXT _ _ => some (.acquire .messenger)
  | .glfwCreateWindowSurface _ _ => some (.acquire .surface)
  | .vkCreateDevice _ _ => some (.acquire .logicalDevice)
  | .vkDestroyDebugUtilsMessengerEXT _ _ => some (.release .messenger)
  | .vkDestroyDevice _ => some (.release .logicalDevice)
  | .vkDestroySurfaceKHR _ _ => some (.release .surface)
  | .vkDestroyInstance _ => some (.release .vulkanInstance)
  | .glfwDestroyWindow _ => some (.release .window)
  | .glfwTerminate => some (.release .platform)
  | _ => none

/-- The creations and destructions among a sequence of calls, in order. -/
def lifecycle (calls : List ApiCall) : List LifecycleEvent :=
  calls.filterMap ApiCall.event

/-- The objects acquired by a sequence of calls, in order of acquisition. -/
def acquisitions (calls : List ApiCall) : List Resource :=
  (lifecycle calls).filterMap (fun e =>
    match e with
    | .acquire r => some r
    | .release _ => none)

/-- The objects released by a sequence of calls, in order of release. -/
def releaseOrder (calls : List ApiCall) : List Resource :=
  (lifecycle calls).filterMap (fun e =>
    match e with
    | .acquire _ => none
    | .release r => some r)

/-- The queue-family indices for which a sequence of calls asked
`vkGetPhysicalDeviceSurfaceSupportKHR` about a device, in order: the indices
the scan of `findQueueFamilies` visited. -/
def scannedIndices (physicalDevice : Handle) (calls : List ApiCall) : List Nat :=
  calls.filterMap (fun c =>
    match c with
    | .vkGetPhysicalDeviceSurfaceSupportKHR d i _ => if d = physicalDevice then some i else none
    | _ => none)

/-- Queue family `i` of a device exists and its flags include the graphics
capability. -/
def graphicsAt (env : Env) (physicalDevice : Handle) (i : Nat) : Bool :=
  match (env.answers physicalDevice).queueFamilies[i]? with
  | some q => hasGraphicsBit q
  | none => false

/-- Queue family `i` of a device exists and can present to the surface. -/
def presentAt (env : Env) (physicalDevice : Handle) (i : Nat) : Bool :=
  decide (i < (env.answers physicalDevice).queueFamilies.length)
    && ((env.answers physicalDevice).surfaceSupported i != 0)

/-- A process that has made no call and written nothing, around a freshly
constructed application object. -/
def Process.start (w i m sf : Handle) : Process :=
  { app := HelloTriangleApplication.fresh w i m sf, calls := [], cerr := "", cout := "" }

/-! ## Sample worlds, used to evaluate the program on concrete inputs -/

/-- Answers of a device with the given name, type, geometry-shader flag,
queue-family flag words and per-index presentation support, which offers the
swapchain extension, one surface format and one present mode. -/
def sampleDevice (name : CString) (type : VkPhysicalDeviceType) (geometryShader : VkBool32)
    (flags : List Nat) (support : List VkBool32) : PhysicalDeviceAnswers :=
  { deviceName := name,
    deviceType := type,
    geometryShader := geometryShader,
    queueFamilies := flags.map (fun f => { queueFlags := f }),
    surfaceSupported := fun i => support.getD i 0,
    extensionNames := ["VK_KHR_surface_protected_capabilities", "VK_KHR_swapchain"],
    capabilities := 0,
    formats := [44],
    presents := [2] }

/-- A host with the given instance layers and physical devices (handles
`1, 2, ...` in enumeration order) on which every creation call succeeds and the
window is closed after two polls. -/
def sampleEnv (enableValidationLayers : Bool) (layers : List CString)
    (devices : List PhysicalDeviceAnswers) : Env :=
  { enableValidationLayers := enableValidationLayers,
    windowHandle := 100,
    glfwExtensions := ["VK_KHR_surface", "VK_KHR_xcb_surface"],
    layers := layers,
    instanceExtensions := ["VK_KHR_surface", "VK_KHR_xcb_surface", "VK_EXT_debug_utils"],
    vkCreateInstanceResult := fun _ => VK_SUCCESS,
    instanceHandle := 101,
    hasCreateMessengerProc := true,
    createMessengerResult := VK_SUCCESS,
    messengerHandle := 102,
    hasDestroyMessengerProc := true,
    createSurfaceResult := VK_SUCCESS,
    surfaceHandle := 103,
    physicalDevices := (List.range devices.length).map (fun k => k + 1),
    answers := fun h =>
      devices.getD (h - 1)
        (sampleDevice "" VkPhysicalDeviceType.VK_PHYSICAL_DEVICE_TYPE_OTHER 0 [] []),
    vkCreateDeviceResult := fun _ _ => VK_SUCCESS,
    deviceHandle := 104,
    queueHandle := fun _ family index => 200 + 10 * family + index,
    pollsBeforeClose := 2 }

/-- A discrete GPU with geometry shaders whose queue families have the given
flag words and presentation support. -/
def discreteGpu (name : CString) (flags : List Nat) (support : List VkBool32) :
    PhysicalDeviceAnswers :=
  sampleDevice name VkPhysicalDeviceType.VK_PHYSICAL_DEVICE_TYPE_DISCRETE_GPU VK_TRUE flags support

/-- The process before `run`: nothing called, nothing written, uninitialised
members holding `0`. -/
def startProcess : Process := Process.start 0 0 0 0

/-- The last of the indices `lo, lo + 1, ..., lo + m - 1` that satisfies `p`,
or `dflt` when none of them does. -/
def lastIndexIn (p : Nat → Bool) (lo m : Nat) (dflt : Option Nat) : Option Nat :=
  (((List.range' lo m).filter p).getLast?).or dflt

/-- The first of the indices `0, 1, ..., n - 1` that satisfies `p`. -/
def firstIndexBelow (p : Nat → Bool) (n : Nat) : Option Nat :=
  ((List.range n).filter p).head?

/-- The last of the indices `0, 1, ..., n - 1` that satisfies `p`. -/
def lastIndexBelow (p : Nat → Bool) (n : Nat) : Option Nat :=
  ((List.range n).filter p).getLast?

/-- A host whose one device has three queue families: families 0 and 1 support
graphics (and compute and transfer) but not presentation, family 2 supports
presentation but not graphics. -/
def envGraphicsTwice : Env :=
  sampleEnv true validationLayers [discreteGpu "GPU" [7, 7, 4] [0, 0, 1]]

/-- A host whose one device has three queue families: family 0 supports
graphics only, family 1 presentation only, family 2 both. -/
def envSharedFamilyLast : Env :=
  sampleEnv true validationLayers [discreteGpu "GPU" [7, 6, 7] [0, 1, 1]]

/-- A host whose one device has two queue families: family 0 supports graphics
only, family 1 presentation only. -/
def envSplitFamilies : Env :=
  sampleEnv true validationLayers [discreteGpu "GPU" [7, 4] [0, 1]]

/-- A host whose one device has two queue families: family 0 supports transfer
only, family 1 supports graphics and presentation. -/
def envSharedFamily : Env :=
  sampleEnv true validationLayers [discreteGpu "GPU" [4, 7] [0, 1]]

/-- The five suitability predicates of the device selector, in the words of
the specification: the device type is discrete GPU; the geometry-shader feature
is supported; a graphics-capable and a presentation-capable queue family both
exist; every required device extension is in the device's extension list; the
swapchain query yields at least one surface format and at least one present
mode. -/
def fivePredicates (env : Env) (d : Handle) : Prop :=
  (env.answers d).deviceType = VkPhysicalDeviceType.VK_PHYSICAL_DEVICE_TYPE_DISCRETE_GPU ∧
  (env.answers d).geometryShader ≠ VK_FALSE ∧
  ((∃ j, j < (env.answers d).queueFamilies.length ∧ graphicsAt env d j = true) ∧
    (∃ j, j < (env.answers d).queueFamilies.length ∧ presentAt env d j = true)) ∧
  (∀ name, name ∈ deviceExtensions → name ∈ (env.answers d).extensionNames) ∧
  ((env.answers d).formats ≠ [] ∧ (env.answers d).presents ≠ [])

instance fivePredicatesDecidable (env : Env) (d : Handle) : Decidable (fivePredicates env d) := by
  unfold fivePredicates
  infer_instance

/-- A host with three devices, in enumeration order: an integrated GPU, then a
discrete GPU whose driver reports the name "NVIDIA GeForce RTX 3060", then
another discrete GPU; the two discrete GPUs satisfy all five predicates. -/
def envThreeDevices : Env :=
  sampleEnv true validationLayers
    [sampleDevice "Intel(R) UHD Graphics 630"
        VkPhysicalDeviceType.VK_PHYSICAL_DEVICE_TYPE_INTEGRATED_GPU VK_TRUE [7] [1],
     discreteGpu "NVIDIA GeForce RTX 3060" [7, 4] [0, 1],
     discreteGpu "AMD Radeon RX 6600" [7] [1]]

/-- A host with two devices, neither of them a discrete GPU: an integrated GPU
whose driver reports the name "NVIDIA GeForce RTX 3060", and a CPU device. -/
def envNoDiscreteGpu : Env :=
  sampleEnv true validationLayers
    [sampleDevice "NVIDIA GeForce RTX 3060"
        VkPhysicalDeviceType.VK_PHYSICAL_DEVICE_TYPE_INTEGRATED_GPU VK_TRUE [7] [1],
     sampleDevice "llvmpipe" VkPhysicalDeviceType.VK_PHYSICAL_DEVICE_TYPE_CPU VK_TRUE [7] [1]]

/-- The starting process after device `d` has been stored as `physicalDevice`. -/
def processWithDevice (d : Handle) : Process :=
  { startProcess with app := { startProcess.app with physicalDevice := d } }

/-- A host with diagnostics enabled whose Vulkan loader offers no validation
layer at all. -/
def envNoValidationLayer : Env :=
  sampleEnv true ["VK_LAYER_MESA_overlay"] [discreteGpu "GPU" [7] [1]]

/-! ## Lemmas on the queue-family scan -/

theorem lastIndexIn_zero (p : Nat → Bool) (lo : Nat) (dflt : Option Nat) :
    lastIndexIn p lo 0 dflt = dflt := by
  simp [lastIndexIn]

theorem lastIndexIn_succ (p : Nat → Bool) (lo m : Nat) (dflt : Option Nat) :
    lastIndexIn p lo (m + 1) dflt
      = lastIndexIn p (lo + 1) m (if p lo then some lo else dflt) := by
  unfold lastIndexIn
  rw [List.range'_succ, List.filter_cons]
  by_cases h : p lo = true
  · simp only [h, if_true, List.getLast?_cons]
    cases ((List.range' (lo + 1) m).filter p).getLast? <;> simp
  · simp only [h]
    simp

/-- One pass through the loop body of `findQueueFamilies`. -/
theorem findQueueFamiliesLoop_cons (env : Env) (pd : Handle) (q : VkQueueFamilyProperties)
    (rest : List VkQueueFamilyProperties) (i : Nat) (ind : QueueFamilyIndices) (s : Process) :
    findQueueFamiliesLoop env pd (q :: rest) i ind s =
      (if (QueueFamilyIndices.mk
            (if hasGraphicsBit q then some i else ind.graphicsFamily)
            (if (env.answers pd).surfaceSupported i != 0 then some i
              else ind.surfaceFamily)).isComplete
        then ((i, QueueFamilyIndices.mk
            (if hasGraphicsBit q then some i else ind.graphicsFamily)
            (if (env.answers pd).surfaceSupported i != 0 then some i
              else ind.surfaceFamily)),
            s.call (.vkGetPhysicalDeviceSurfaceSupportKHR pd i s.app.surface))
        else findQueueFamiliesLoop env pd rest (i + 1)
            (QueueFamilyIndices.mk
              (if hasGraphicsBit q then some i else ind.graphicsFamily)
              (if (env.answers pd).surfaceSupported i != 0 then some i
                else ind.surfaceFamily))
            (s.call (.vkGetPhysicalDeviceSurfaceSupportKHR pd i s.app.surface))) := by
  cases ind with
  | mk g p =>
    simp only [findQueueFamiliesLoop]
    by_cases hg : hasGraphicsBit q = true <;>
      by_cases hp : ((env.answers pd).surfaceSupported i != 0) = true <;>
      simp [hg, hp]

/-- The loop of `findQueueFamilies`, entered at index `i` with incomplete
`indices`, visits `m` indices from `i` on: it records one presentation query
for each, leaves in each field the last visited index with the capability (or
the field's entry value), runs to the end of the list unless the result is
complete, and a complete result was incomplete before the last visited index. -/
theorem findQueueFamiliesLoop_spec (env : Env) (pd : Handle) (G : Nat → Bool) :
    ∀ (rest : List VkQueueFamilyProperties) (i : Nat) (ind : QueueFamilyIndices) (s : Process),
      (∀ k q, rest[k]? = some q → G (i + k) = hasGraphicsBit q) →
      ind.isComplete = false →
      ∃ m, m ≤ rest.length ∧
        (findQueueFamiliesLoop env pd rest i ind s).2 =
          { s with calls := s.calls ++ ((List.range' i m).map
              (fun j => ApiCall.vkGetPhysicalDeviceSurfaceSupportKHR pd j s.app.surface)) } ∧
        (findQueueFamiliesLoop env pd rest i ind s).1.2 =
          QueueFamilyIndices.mk (lastIndexIn G i m ind.graphicsFamily)
            (lastIndexIn (fun j => (env.answers pd).surfaceSupported j != 0) i m
              ind.surfaceFamily) ∧
        ((findQueueFamiliesLoop env pd rest i ind s).1.2.isComplete = false →
          m = rest.length ∧ (findQueueFamiliesLoop env pd rest i ind s).1.1 = i + m) ∧
        ((findQueueFamiliesLoop env pd rest i ind s).1.2.isComplete = true →
          0 < m ∧ (findQueueFamiliesLoop env pd rest i ind s).1.1 + 1 = i + m ∧
          (QueueFamilyIndices.mk (lastIndexIn G i (m - 1) ind.graphicsFamily)
            (lastIndexIn (fun j => (env.answers pd).surfaceSupported j != 0) i (m - 1)
              ind.surfaceFamily)).isComplete = false) := by
  intro rest
  induction rest with
  | nil =>
    intro i ind s _ hind
    refine ⟨0, le_refl _, ?_, ?_, ?_, ?_⟩
    · simp [findQueueFamiliesLoop]
    · simp [findQueueFamiliesLoop, lastIndexIn_zero]
    · intro _; simp [findQueueFamiliesLoop]
    · intro h; simp [findQueueFamiliesLoop, hind] at h
  | cons q rest ih =>
    intro i ind s hG hind
    have hGi : G i = hasGraphicsBit q := by
      have := hG 0 q (by simp)
      simpa using this
    rw [findQueueFamiliesLoop_cons]
    by_cases hc : (QueueFamilyIndices.mk
            (if hasGraphicsBit q then some i else ind.graphicsFamily)
            (if (env.answers pd).surfaceSupported i != 0 then some i
              else ind.surfaceFamily)).isComplete = true
    · rw [if_pos hc]
      refine ⟨1, by simp, ?_, ?_, ?_, ?_⟩
      · simp [Process.call]
      · rw [lastIndexIn_succ, lastIndexIn_succ, lastIndexIn_zero, lastIndexIn_zero, hGi]
      · intro h; simp only [hc] at h; exact absurd h (by simp)
      · intro _
        refine ⟨by simp, by simp, ?_⟩
        simp only [Nat.sub_self, lastIndexIn_zero]
        cases ind; exact hind
    · rw [if_neg hc]
      have hc2 : (QueueFamilyIndices.mk
            (if hasGraphicsBit q then some i else ind.graphicsFamily)
            (if (env.answers pd).surfaceSupported i != 0 then some i
              else ind.surfaceFamily)).isComplete = false := by
        simpa using hc
      obtain ⟨m, hm, hs, hv, hn, hy⟩ := ih (i + 1) _
        (s.call (.vkGetPhysicalDeviceSurfaceSupportKHR pd i s.app.surface))
        (fun k q2 hk => by
          have := hG (k + 1) q2 (by simpa using hk)
          rw [← this]; congr 1; omega) hc2
      refine ⟨m + 1, by simp; omega, ?_, ?_, ?_, ?_⟩
      · rw [hs]; simp [Process.call, List.range'_succ]
      · rw [hv, lastIndexIn_succ, lastIndexIn_succ, hGi]
      · intro h
        obtain ⟨h1, h2⟩ := hn h
        refine ⟨by simp [h1], by rw [h2]; omega⟩
      · intro h
        obtain ⟨h1, h2, h3⟩ := hy h
        refine ⟨by omega, by rw [h2]; omega, ?_⟩
        obtain ⟨m', rfl⟩ : ∃ m', m = m' + 1 := ⟨m - 1, by omega⟩
        simp only [Nat.add_sub_cancel] at h3 ⊢
        rw [lastIndexIn_succ, lastIndexIn_succ, hGi]
        exact h3

theorem lastIndexBelow_succ (p : Nat → Bool) (n : Nat) :
    lastIndexBelow p (n + 1) = if p n then some n else lastIndexBelow p n := by
  unfold lastIndexBelow
  rw [List.range_succ, List.filter_append]
  by_cases h : p n = true
  · simp [h]
  · simp [h]

theorem lastIndexBelow_eq_some_iff (p : Nat → Bool) (n g : Nat) :
    lastIndexBelow p n = some g ↔
      g < n ∧ p g = true ∧ ∀ j, g < j → j < n → p j = false := by
  induction n with
  | zero => simp [lastIndexBelow]
  | succ n ih =>
    rw [lastIndexBelow_succ]
    by_cases h : p n = true
    · rw [if_pos h, Option.some.injEq]
      constructor
      · rintro rfl
        exact ⟨by omega, h, fun j h1 h2 => by omega⟩
      · rintro ⟨h1, _, h3⟩
        by_contra hne
        have := h3 n (by omega) (by omega)
        simp [h] at this
    · rw [if_neg h, ih]
      have hf : p n = false := by simpa using h
      constructor
      · rintro ⟨h1, h2, h3⟩
        refine ⟨by omega, h2, fun j hj1 hj2 => ?_⟩
        by_cases hjn : j = n
        · subst hjn; exact hf
        · exact h3 j hj1 (by omega)
      · rintro ⟨h1, h2, h3⟩
        have hgn : g ≠ n := by rintro rfl; simp [hf] at h2
        exact ⟨by omega, h2, fun j hj1 hj2 => h3 j hj1 (by omega)⟩

theorem lastIndexBelow_eq_none_iff (p : Nat → Bool) (n : Nat) :
    lastIndexBelow p n = none ↔ ∀ j, j < n → p j = false := by
  simp [lastIndexBelow, List.filter_eq_nil_iff]

theorem lastIndexBelow_isSome_iff (p : Nat → Bool) (n : Nat) :
    (lastIndexBelow p n).isSome = true ↔ ∃ j, j < n ∧ p j = true := by
  rw [← not_iff_not]
  simp [lastIndexBelow_eq_none_iff]

theorem lastIndexIn_zero_none (p : Nat → Bool) (n : Nat) :
    lastIndexIn p 0 n none = lastIndexBelow p n := by
  simp [lastIndexIn, lastIndexBelow, List.range_eq_range']

theorem lastIndexBelow_congr (p q : Nat → Bool) (n : Nat) (h : ∀ j, j < n → p j = q j) :
    lastIndexBelow p n = lastIndexBelow q n := by
  unfold lastIndexBelow
  congr 1
  apply List.filter_congr
  intro x hx
  exact h x (List.mem_range.mp hx)

/-- What `findQueueFamilies` computes: it visits the indices below some `N`, and
each field is the last visited index with the capability. -/
theorem findQueueFamilies_spec (env : Env) (pd : Handle) (s : Process) :
    ∃ N, N ≤ (env.answers pd).queueFamilies.length ∧
      (findQueueFamilies env pd s).2 =
        { s with calls := s.calls ++
            ([ApiCall.vkGetPhysicalDeviceQueueFamilyProperties pd,
              ApiCall.vkGetPhysicalDeviceQueueFamilyProperties pd] ++
              (List.range N).map
                (fun j => ApiCall.vkGetPhysicalDeviceSurfaceSupportKHR pd j s.app.surface)) } ∧
      (findQueueFamilies env pd s).1 =
        QueueFamilyIndices.mk (lastIndexBelow (graphicsAt env pd) N)
          (lastIndexBelow (presentAt env pd) N) ∧
      ((findQueueFamilies env pd s).1.isComplete = false →
        N = (env.answers pd).queueFamilies.length) ∧
      ((findQueueFamilies env pd s).1.isComplete = true →
        0 < N ∧
        (QueueFamilyIndices.mk (lastIndexBelow (graphicsAt env pd) (N - 1))
          (lastIndexBelow (presentAt env pd) (N - 1))).isComplete = false) := by
  obtain ⟨m, hm, hs, hv, hn, hy⟩ :=
    findQueueFamiliesLoop_spec env pd (graphicsAt env pd) (env.answers pd).queueFamilies 0 {}
      ((s.call (.vkGetPhysicalDeviceQueueFamilyProperties pd)).call
        (.vkGetPhysicalDeviceQueueFamilyProperties pd))
      (fun k q hk => by simp [graphicsAt, hk]) (by decide)
  have hP : ∀ n, n ≤ m →
      lastIndexBelow (fun j => (env.answers pd).surfaceSupported j != 0) n
        = lastIndexBelow (presentAt env pd) n := by
    intro n hn
    apply lastIndexBelow_congr
    intro j hj
    have : j < (env.answers pd).queueFamilies.length := by omega
    simp [presentAt, this]
  simp only [lastIndexIn_zero_none] at hv hy
  rw [hP m (le_refl _)] at hv
  rw [hP (m - 1) (by omega)] at hy
  have hfst : (findQueueFamilies env pd s).1 =
      (findQueueFamiliesLoop env pd (env.answers pd).queueFamilies 0 {}
        ((s.call (.vkGetPhysicalDeviceQueueFamilyProperties pd)).call
          (.vkGetPhysicalDeviceQueueFamilyProperties pd))).1.2 := rfl
  have hsnd : (findQueueFamilies env pd s).2 =
      (findQueueFamiliesLoop env pd (env.answers pd).queueFamilies 0 {}
        ((s.call (.vkGetPhysicalDeviceQueueFamilyProperties pd)).call
          (.vkGetPhysicalDeviceQueueFamilyProperties pd))).2 := rfl
  refine ⟨m, hm, ?_, ?_, ?_, ?_⟩
  · rw [hsnd, hs]; simp [Process.call, List.range_eq_range']
  · rw [hfst, hv]
  · intro h; rw [hfst] at h; exact (hn h).1
  · intro h; rw [hfst] at h; exact ⟨(hy h).1, (hy h).2.2⟩

theorem scannedIndices_append (pd : Handle) (xs ys : List ApiCall) :
    scannedIndices pd (xs ++ ys) = scannedIndices pd xs ++ scannedIndices pd ys := by
  simp [scannedIndices, List.filterMap_append]

theorem scannedIndices_scan (pd sf : Handle) (n : Nat) :
    scannedIndices pd
      ([ApiCall.vkGetPhysicalDeviceQueueFamilyProperties pd,
        ApiCall.vkGetPhysicalDeviceQueueFamilyProperties pd] ++
        (List.range n).map (fun j => ApiCall.vkGetPhysicalDeviceSurfaceSupportKHR pd j sf))
      = List.range n := by
  simp [scannedIndices, List.filterMap_map, Function.comp_def]

theorem presentAt_lt (env : Env) (pd : Handle) (j : Nat) (h : presentAt env pd j = true) :
    j < (env.answers pd).queueFamilies.length := by
  simp [presentAt] at h
  exact h.1

theorem findQueueFamilies_app (env : Env) (pd : Handle) (s : Process) :
    (findQueueFamilies env pd s).2.app = s.app := by
  obtain ⟨N, _, hs, _⟩ := findQueueFamilies_spec env pd s
  rw [hs]

theorem findQueueFamilies_isComplete_iff (env : Env) (pd : Handle) (s : Process) :
    (findQueueFamilies env pd s).1.isComplete = true ↔
      (∃ j, j < (env.answers pd).queueFamilies.length ∧ graphicsAt env pd j = true) ∧
      (∃ j, j < (env.answers pd).queueFamilies.length ∧ presentAt env pd j = true) := by
  obtain ⟨N, hN, _, hv, hn, _⟩ := findQueueFamilies_spec env pd s
  constructor
  · intro hc
    rw [hv] at hc
    simp only [QueueFamilyIndices.isComplete, Bool.and_eq_true] at hc
    obtain ⟨jg, hjg, hG⟩ := (lastIndexBelow_isSome_iff _ _).1 hc.1
    obtain ⟨jp, hjp, hP⟩ := (lastIndexBelow_isSome_iff _ _).1 hc.2
    exact ⟨⟨jg, by omega, hG⟩, ⟨jp, by omega, hP⟩⟩
  · rintro ⟨⟨jg, hjg, hG⟩, ⟨jp, hjp, hP⟩⟩
    by_contra hc
    have hc2 : (findQueueFamilies env pd s).1.isComplete = false := by simpa using hc
    have hNe := hn hc2
    subst hNe
    rw [hv] at hc
    apply hc
    simp only [QueueFamilyIndices.isComplete, Bool.and_eq_true]
    exact ⟨(lastIndexBelow_isSome_iff _ _).2 ⟨jg, hjg, hG⟩,
      (lastIndexBelow_isSome_iff _ _).2 ⟨jp, hjp, hP⟩⟩

theorem deviceExtensionsSupported_fst (env : Env) (d : Handle) (s : Process) :
    (deviceExtensionsSupported env d s).1 = true ↔
      ∀ name, name ∈ deviceExtensions → name ∈ (env.answers d).extensionNames := by
  simp only [deviceExtensionsSupported, List.all_eq_true, List.any_eq_true, strcmpEqZero,
    beq_iff_eq]
  constructor
  · intro h name hn
    obtain ⟨x, hx, rfl⟩ := h name hn
    exact hx
  · intro h name hn
    exact ⟨name, h name hn, rfl⟩

theorem deviceExtensionsSupported_app (env : Env) (d : Handle) (s : Process) :
    (deviceExtensionsSupported env d s).2.app = s.app := rfl

theorem supportedSwapChainDetails_app (env : Env) (d : Handle) (s : Process) :
    (supportedSwapChainDetails env d s).2.app = s.app := rfl

/-- On every device `isDeviceSuitable` returns normally, its value is true
exactly on the five predicates, and it leaves the application object alone. -/
theorem isDeviceSuitable_spec (env : Env) (d : Handle) (s : Process) :
    ∃ b, (isDeviceSuitable env d s).1 = .ok b ∧ (b = true ↔ fivePredicates env d) ∧
      (isDeviceSuitable env d s).2.app = s.app := by
  have hq := findQueueFamilies_isComplete_iff env d
    ((s.call (.vkGetPhysicalDeviceProperties d)).call (.vkGetPhysicalDeviceFeatures d))
  have ha := findQueueFamilies_app env d
    ((s.call (.vkGetPhysicalDeviceProperties d)).call (.vkGetPhysicalDeviceFeatures d))
  have he := deviceExtensionsSupported_fst env d (findQueueFamilies env d
    ((s.call (.vkGetPhysicalDeviceProperties d)).call (.vkGetPhysicalDeviceFeatures d))).2
  unfold isDeviceSuitable
  simp only [reduceCtorEq, if_false]
  refine ⟨_, rfl, ?_, ?_⟩
  · unfold fivePredicates
    rw [← hq, ← he]
    by_cases hx : (deviceExtensionsSupported env d (findQueueFamilies env d
        ((s.call (.vkGetPhysicalDeviceProperties d)).call
          (.vkGetPhysicalDeviceFeatures d))).2).1 = true
    · simp only [hx, if_true]
      simp [supportedSwapChainDetails, VK_FALSE, List.length_pos, and_assoc]
    · simp [hx]
  · by_cases hx : (deviceExtensionsSupported env d (findQueueFamilies env d
        ((s.call (.vkGetPhysicalDeviceProperties d)).call
          (.vkGetPhysicalDeviceFeatures d))).2).1 = true
    · simp only [hx, if_true]
      rw [supportedSwapChainDetails_app, deviceExtensionsSupported_app, ha]
      rfl
    · simp only [hx]
      simp only [Bool.false_eq_true, if_false]
      rw [deviceExtensionsSupported_app, ha]
      rfl

/-- The loop of `pickPhysicalDevice` stores the first device satisfying the
five predicates and reports `true`, or reports `false` when there is none. -/
theorem pickPhysicalDeviceLoop_spec (env : Env) (devices : List Handle) :
    ∀ s : Process,
      match devices.find? (fun d => decide (fivePredicates env d)) with
      | some d =>
        (pickPhysicalDeviceLoop env devices s).1 = .ok true ∧
          (pickPhysicalDeviceLoop env devices s).2.app = { s.app with physicalDevice := d }
      | none =>
        (pickPhysicalDeviceLoop env devices s).1 = .ok false ∧
          (pickPhysicalDeviceLoop env devices s).2.app = s.app := by
  induction devices with
  | nil => intro s; simp [pickPhysicalDeviceLoop]
  | cons d rest ih =>
    intro s
    obtain ⟨b, hb, hiff, happ⟩ := isDeviceSuitable_spec env d s
    rcases hsu : isDeviceSuitable env d s with ⟨r, s1⟩
    rw [hsu] at hb happ
    simp only at hb happ
    subst hb
    cases b with
    | true =>
      have hfive : fivePredicates env d := hiff.1 rfl
      simp only [List.find?_cons, hfive, decide_True, pickPhysicalDeviceLoop, hsu, happ]
      exact ⟨trivial, trivial⟩
    | false =>
      have hfive : ¬ fivePredicates env d := fun h => absurd (hiff.2 h) (by decide)
      simp only [List.find?_cons, hfive, decide_False, pickPhysicalDeviceLoop, hsu]
      have := ih s1
      rw [happ] at this
      exact this

theorem pickPhysicalDevice_spec (env : Env) (s : Process) :
    match env.physicalDevices.find? (fun d => decide (fivePredicates env d)) with
    | some d =>
      (pickPhysicalDevice env s).1 = .ok () ∧
        (pickPhysicalDevice env s).2.app = { s.app with physicalDevice := d }
    | none =>
      (pickPhysicalDevice env s).1 = .error (.runtime_error "No suitable device found.") ∧
        (pickPhysicalDevice env s).2.app = s.app := by
  have h := pickPhysicalDeviceLoop_spec env env.physicalDevices
    ((s.call (.vkEnumeratePhysicalDevices s.app.vkInstance)).call
      (.vkEnumeratePhysicalDevices s.app.vkInstance))
  unfold pickPhysicalDevice
  rcases hl : pickPhysicalDeviceLoop env env.physicalDevices
    ((s.call (.vkEnumeratePhysicalDevices s.app.vkInstance)).call
      (.vkEnumeratePhysicalDevices s.app.vkInstance)) with ⟨r, s3⟩
  rw [hl] at h
  cases hf : env.physicalDevices.find? (fun d => decide (fivePredicates env d)) with
  | some d =>
    rw [hf] at h
    simp only at h ⊢
    obtain ⟨h1, h2⟩ := h
    subst h1
    simp only [hl]
    exact ⟨trivial, h2⟩
  | none =>
    rw [hf] at h
    simp only at h ⊢
    obtain ⟨h1, h2⟩ := h
    subst h1
    simp only [hl]
    exact ⟨trivial, h2⟩

/-! ## The queue-family scan: claims C3, C4, C9 -/

/-- C9: the result of `findQueueFamilies` is complete exactly when the device
has a graphics-capable family and a family that can present to the surface; a
field that is present holds an index below the family count, and
`graphicsFamily` names a family whose flags include graphics, `surfaceFamily` a
family that can present. -/
theorem C9_findQueueFamilies_complete_iff (env : Env) (pd : Handle) (s : Process) :
    ((findQueueFamilies env pd s).1.isComplete = true ↔
      (∃ j, j < (env.answers pd).queueFamilies.length ∧ graphicsAt env pd j = true) ∧
      (∃ j, j < (env.answers pd).queueFamilies.length ∧ presentAt env pd j = true)) ∧
    (∀ g, (findQueueFamilies env pd s).1.graphicsFamily = some g →
      g < (env.answers pd).queueFamilies.length ∧ graphicsAt env pd g = true) ∧
    (∀ p, (findQueueFamilies env pd s).1.surfaceFamily = some p →
      p < (env.answers pd).queueFamilies.length ∧ presentAt env pd p = true) := by
  obtain ⟨N, hN, _, hv, _, _⟩ := findQueueFamilies_spec env pd s
  refine ⟨findQueueFamilies_isComplete_iff env pd s, ?_, ?_⟩
  · intro g hg
    rw [hv] at hg
    have := (lastIndexBelow_eq_some_iff _ _ _).1 hg
    exact ⟨by omega, this.2.1⟩
  · intro p hp
    rw [hv] at hp
    have := (lastIndexBelow_eq_some_iff _ _ _).1 hp
    exact ⟨by omega, this.2.1⟩

/-- C3, as stated, fails: on a device whose families 0 and 1 support graphics
only and whose family 2 supports presentation only, the scan visits indices 0,
1 and 2, family 0 is the first graphics-capable family among them, and yet
`graphicsFamily` is 1. -/
theorem C3_counterexample_first_graphics_index_overwritten :
    (findQueueFamilies envGraphicsTwice 1 startProcess).1
        = { graphicsFamily := some 1, surfaceFamily := some 2 } ∧
      scannedIndices 1 (findQueueFamilies envGraphicsTwice 1 startProcess).2.calls = [0, 1, 2] ∧
      firstIndexBelow (graphicsAt envGraphicsTwice 1) 3 = some 0 ∧
      (findQueueFamilies envGraphicsTwice 1 startProcess).1.graphicsFamily
        ≠ firstIndexBelow (graphicsAt envGraphicsTwice 1) 3 := by
  decide

/-- C3 (amended): `findQueueFamilies` visits the family indices `0, ..., N - 1`
for some `N` up to the family count; `graphicsFamily` is the last (highest)
visited index whose flags include the graphics capability and `surfaceFamily`
the last (highest) visited index that can present to the surface.  The scan
stops before the end of the list only with a complete result, and a complete
result was not yet complete before the last visited index.  In particular, when
family 0 supports graphics only and family 1 presentation only, the result is
graphics 0, presentation 1. -/
theorem C3_findQueueFamilies_last_scanned_index (env : Env) (pd : Handle) (s : Process) :
    (∃ N, N ≤ (env.answers pd).queueFamilies.length ∧
      scannedIndices pd (findQueueFamilies env pd s).2.calls
        = scannedIndices pd s.calls ++ List.range N ∧
      (∀ g, (findQueueFamilies env pd s).1.graphicsFamily = some g ↔
        g < N ∧ graphicsAt env pd g = true ∧
          ∀ j, g < j → j < N → graphicsAt env pd j = false) ∧
      (∀ p, (findQueueFamilies env pd s).1.surfaceFamily = some p ↔
        p < N ∧ presentAt env pd p = true ∧
          ∀ j, p < j → j < N → presentAt env pd j = false) ∧
      (N < (env.answers pd).queueFamilies.length →
        (findQueueFamilies env pd s).1.isComplete = true) ∧
      ((findQueueFamilies env pd s).1.isComplete = true →
        0 < N ∧ ((∀ j, j < N - 1 → graphicsAt env pd j = false) ∨
          (∀ j, j < N - 1 → presentAt env pd j = false)))) ∧
    ((env.answers pd).queueFamilies.length = 2 →
      graphicsAt env pd 0 = true → presentAt env pd 0 = false →
      graphicsAt env pd 1 = false → presentAt env pd 1 = true →
      (findQueueFamilies env pd s).1 = { graphicsFamily := some 0, surfaceFamily := some 1 }) := by
  obtain ⟨N, hN, hs, hv, hn, hy⟩ := findQueueFamilies_spec env pd s
  have hgen : ∀ g, (findQueueFamilies env pd s).1.graphicsFamily = some g ↔
      g < N ∧ graphicsAt env pd g = true ∧
        ∀ j, g < j → j < N → graphicsAt env pd j = false := by
    intro g; rw [hv]; exact lastIndexBelow_eq_some_iff _ _ _
  have hpen : ∀ p, (findQueueFamilies env pd s).1.surfaceFamily = some p ↔
      p < N ∧ presentAt env pd p = true ∧
        ∀ j, p < j → j < N → presentAt env pd j = false := by
    intro p; rw [hv]; exact lastIndexBelow_eq_some_iff _ _ _
  have hstop : (findQueueFamilies env pd s).1.isComplete = true →
      0 < N ∧ ((∀ j, j < N - 1 → graphicsAt env pd j = false) ∨
        (∀ j, j < N - 1 → presentAt env pd j = false)) := by
    intro hc
    obtain ⟨h0, hpre⟩ := hy hc
    refine ⟨h0, ?_⟩
    simp only [QueueFamilyIndices.isComplete, Bool.and_eq_false_iff] at hpre
    rcases hpre with h | h
    · exact Or.inl ((lastIndexBelow_eq_none_iff _ _).1 (Option.not_isSome_iff_eq_none.1 (by simp [h])))
    · exact Or.inr ((lastIndexBelow_eq_none_iff _ _).1 (Option.not_isSome_iff_eq_none.1 (by simp [h])))
  have hearly : N < (env.answers pd).queueFamilies.length →
      (findQueueFamilies env pd s).1.isComplete = true := by
    intro hlt
    by_contra hc
    have := hn (by simpa using hc)
    omega
  refine ⟨⟨N, hN, ?_, hgen, hpen, hearly, hstop⟩, ?_⟩
  · rw [hs]
    rw [scannedIndices_append, scannedIndices_scan]
  · intro hlen hg0 hp0 hg1 hp1
    have hN2 : N = 2 := by
      by_contra hne
      have hc := hearly (by omega)
      obtain ⟨hpos, _⟩ := hstop hc
      have hN1 : N = 1 := by omega
      subst hN1
      have hsome : (findQueueFamilies env pd s).1.surfaceFamily.isSome = true := by
        simp only [QueueFamilyIndices.isComplete, Bool.and_eq_true] at hc
        exact hc.2
      obtain ⟨p, hp⟩ := Option.isSome_iff_exists.1 hsome
      obtain ⟨hlt, hpt, _⟩ := (hpen p).1 hp
      have : p = 0 := by omega
      subst this
      rw [hp0] at hpt
      exact absurd hpt (by decide)
    subst hN2
    have hG : (findQueueFamilies env pd s).1.graphicsFamily = some 0 :=
      (hgen 0).2 ⟨by omega, hg0, fun j h1 h2 => by
        have : j = 1 := by omega
        subst this; exact hg1⟩
    have hP : (findQueueFamilies env pd s).1.surfaceFamily = some 1 :=
      (hpen 1).2 ⟨by omega, hp1, fun j h1 h2 => by omega⟩
    cases hres : (findQueueFamilies env pd s).1 with
    | mk g p =>
      rw [hres] at hG hP
      simp only at hG hP
      rw [hG, hP]

/-- C3 (amended) at a concrete device: family 0 supports graphics only and
family 1 presentation only. -/
theorem C3_findQueueFamilies_last_scanned_index_witness :
    (findQueueFamilies envSplitFamilies 1 startProcess).1
      = { graphicsFamily := some 0, surfaceFamily := some 1 } :=
  (C3_findQueueFamilies_last_scanned_index envSplitFamilies 1 startProcess).2
    (by decide) (by decide) (by decide) (by decide) (by decide)

/-- C4, as stated, fails: on a device whose family 0 supports graphics only,
family 1 presentation only and family 2 both, family 2 is the lowest family
supporting both, but the scan stops at index 1 and returns graphics 0,
presentation 1. -/
theorem C4_counterexample_scan_stops_before_shared_family :
    graphicsAt envSharedFamilyLast 1 2 = true ∧ presentAt envSharedFamilyLast 1 2 = true ∧
      (∀ j, j < 2 →
        ¬ (graphicsAt envSharedFamilyLast 1 j = true ∧ presentAt envSharedFamilyLast 1 j = true)) ∧
      (findQueueFamilies envSharedFamilyLast 1 startProcess).1
        = { graphicsFamily := some 0, surfaceFamily := some 1 } ∧
      scannedIndices 1 (findQueueFamilies envSharedFamilyLast 1 startProcess).2.calls = [0, 1] ∧
      (findQueueFamilies envSharedFamilyLast 1 startProcess).1
        ≠ { graphicsFamily := some 2, surfaceFamily := some 2 } := by
  decide

/-- C4 (amended): when family `i` is the lowest family supporting both graphics
and presentation, and the families before `i` do not include both a
graphics-capable and a presentation-capable one, `findQueueFamilies` visits
exactly the indices `0, ..., i`, stopping at `i`, and returns
`graphicsFamily = surfaceFamily = i`. -/
theorem C4_findQueueFamilies_stops_at_shared_family (env : Env) (pd : Handle) (s : Process)
    (i : Nat)
    (hg : graphicsAt env pd i = true) (hp : presentAt env pd i = true)
    (hlowest : ∀ j, j < i → ¬ (graphicsAt env pd j = true ∧ presentAt env pd j = true))
    (hreach : (∀ j, j < i → graphicsAt env pd j = false) ∨
      (∀ j, j < i → presentAt env pd j = false)) :
    (findQueueFamilies env pd s).1 = { graphicsFamily := some i, surfaceFamily := some i } ∧
      scannedIndices pd (findQueueFamilies env pd s).2.calls
        = scannedIndices pd s.calls ++ List.range (i + 1) := by
  have _ := hlowest
  obtain ⟨N, hN, hs, hv, hn, hy⟩ := findQueueFamilies_spec env pd s
  have hi : i < (env.answers pd).queueFamilies.length := presentAt_lt env pd i hp
  have hge : i + 1 ≤ N := by
    by_contra hlt
    have hc : (findQueueFamilies env pd s).1.isComplete = true := by
      by_contra hc
      have := hn (by simpa using hc)
      omega
    rw [hv] at hc
    simp only [QueueFamilyIndices.isComplete, Bool.and_eq_true] at hc
    obtain ⟨jg, hjg, hG⟩ := (lastIndexBelow_isSome_iff _ _).1 hc.1
    obtain ⟨jp, hjp, hP⟩ := (lastIndexBelow_isSome_iff _ _).1 hc.2
    rcases hreach with h | h
    · rw [h jg (by omega)] at hG; exact absurd hG (by decide)
    · rw [h jp (by omega)] at hP; exact absurd hP (by decide)
  have hc : (findQueueFamilies env pd s).1.isComplete = true := by
    rw [hv]
    simp only [QueueFamilyIndices.isComplete, Bool.and_eq_true]
    exact ⟨(lastIndexBelow_isSome_iff _ _).2 ⟨i, by omega, hg⟩,
      (lastIndexBelow_isSome_iff _ _).2 ⟨i, by omega, hp⟩⟩
  have hle : N ≤ i + 1 := by
    by_contra hgt
    obtain ⟨_, hpre⟩ := hy hc
    have : (QueueFamilyIndices.mk (lastIndexBelow (graphicsAt env pd) (N - 1))
        (lastIndexBelow (presentAt env pd) (N - 1))).isComplete = true := by
      simp only [QueueFamilyIndices.isComplete, Bool.and_eq_true]
      exact ⟨(lastIndexBelow_isSome_iff _ _).2 ⟨i, by omega, hg⟩,
        (lastIndexBelow_isSome_iff _ _).2 ⟨i, by omega, hp⟩⟩
    rw [this] at hpre
    exact absurd hpre (by decide)
  have hNe : N = i + 1 := by omega
  subst hNe
  refine ⟨?_, ?_⟩
  · rw [hv, lastIndexBelow_succ, lastIndexBelow_succ, if_pos hg, if_pos hp]
  · rw [hs]
    rw [scannedIndices_append, scannedIndices_scan]

/-- C4 (amended) at a concrete device: family 0 supports neither capability,
family 1 both. -/
theorem C4_findQueueFamilies_stops_at_shared_family_witness :
    (findQueueFamilies envSharedFamily 1 startProcess).1
        = { graphicsFamily := some 1, surfaceFamily := some 1 } ∧
      scannedIndices 1 (findQueueFamilies envSharedFamily 1 startProcess).2.calls
        = scannedIndices 1 startProcess.calls ++ List.range (1 + 1) :=
  C4_findQueueFamilies_stops_at_shared_family envSharedFamily 1 startProcess 1
    (by decide) (by decide) (by decide) (by decide)

/-! ## Device selection: claims C1, C2 -/

/-- C1: `pickPhysicalDevice` stores as `physicalDevice` the first device, in
enumeration order, that satisfies all five predicates, and it fails with
"No suitable device found." exactly when no enumerated device satisfies all
five.  The five predicates are those the code evaluates: discrete GPU type,
geometry-shader feature, complete `findQueueFamilies` result,
`deviceExtensionsSupported`, and a swapchain query with at least one format and
one present mode. -/
theorem C1_pickPhysicalDevice_first_suitable (env : Env) (s : Process) :
    (∀ before d after, env.physicalDevices = before ++ d :: after →
      (∀ x, x ∈ before → ¬ fivePredicates env x) → fivePredicates env d →
      (pickPhysicalDevice env s).1 = .ok () ∧
        (pickPhysicalDevice env s).2.app = { s.app with physicalDevice := d }) ∧
    ((pickPhysicalDevice env s).1 = .error (.runtime_error "No suitable device found.") ↔
      ∀ d, d ∈ env.physicalDevices → ¬ fivePredicates env d) ∧
    (∀ d t, fivePredicates env d ↔
      ((env.answers d).deviceType = VkPhysicalDeviceType.VK_PHYSICAL_DEVICE_TYPE_DISCRETE_GPU ∧
        (env.answers d).geometryShader ≠ 0 ∧
        (findQueueFamilies env d t).1.isComplete = true ∧
        (deviceExtensionsSupported env d t).1 = true ∧
        ((supportedSwapChainDetails env d t).1.formats.length > 0 ∧
          (supportedSwapChainDetails env d t).1.presents.length > 0))) := by
  have h := pickPhysicalDevice_spec env s
  refine ⟨?_, ?_, ?_⟩
  · intro before d after hsplit hbefore hd
    have hf : env.physicalDevices.find? (fun d => decide (fivePredicates env d)) = some d := by
      rw [List.find?_eq_some]
      exact ⟨by simpa using hd, before, after, hsplit, fun a ha => by simpa using hbefore a ha⟩
    rw [hf] at h
    exact h
  · cases hf : env.physicalDevices.find? (fun d => decide (fivePredicates env d)) with
    | some d =>
      rw [hf] at h
      have hd := List.find?_some hf
      have hmem := List.mem_of_find?_eq_some hf
      constructor
      · intro herr
        rw [h.1] at herr
        exact absurd herr (by simp)
      · intro hall
        exact absurd (by simpa using hd) (hall d hmem)
    | none =>
      rw [hf] at h
      constructor
      · intro _ d hd
        have := List.find?_eq_none.1 hf d hd
        simpa using this
      · intro _
        exact h.1
  · intro d t
    unfold fivePredicates
    rw [findQueueFamilies_isComplete_iff, deviceExtensionsSupported_fst]
    simp [supportedSwapChainDetails, List.length_pos, VK_FALSE]

/-- C1 at a concrete host: the integrated GPU enumerated first is passed over
and the discrete GPU enumerated second is stored, not the suitable one
enumerated third. -/
theorem C1_pickPhysicalDevice_first_suitable_witness :
    (pickPhysicalDevice envThreeDevices startProcess).1 = .ok () ∧
      (pickPhysicalDevice envThreeDevices startProcess).2.app
        = { startProcess.app with physicalDevice := 2 } :=
  (C1_pickPhysicalDevice_first_suitable envThreeDevices startProcess).1 [1] 2 [3]
    (by decide) (by decide) (by decide)

/-- C2: when no enumerated device has type discrete GPU (whatever the devices'
names, features, queue families and extensions), `pickPhysicalDevice` fails
with "No suitable device found." and leaves the application object, in
particular `physicalDevice`, as it was. -/
theorem C2_pickPhysicalDevice_no_discrete_gpu (env : Env) (s : Process)
    (h : ∀ d, d ∈ env.physicalDevices →
      (env.answers d).deviceType ≠ VkPhysicalDeviceType.VK_PHYSICAL_DEVICE_TYPE_DISCRETE_GPU) :
    (pickPhysicalDevice env s).1 = .error (.runtime_error "No suitable device found.") ∧
      (pickPhysicalDevice env s).2.app = s.app ∧
      (pickPhysicalDevice env s).2.app.physicalDevice = s.app.physicalDevice := by
  have hs := pickPhysicalDevice_spec env s
  have hf : env.physicalDevices.find? (fun d => decide (fivePredicates env d)) = none := by
    rw [List.find?_eq_none]
    intro d hd
    have := h d hd
    simp only [decide_eq_true_eq]
    intro h5
    exact this h5.1
  rw [hf] at hs
  exact ⟨hs.1, hs.2, by rw [hs.2]⟩

/-- C2 at a concrete host without a discrete GPU: the selection fails
with "No suitable device found." although one device reports the name
"NVIDIA GeForce RTX 3060"; `physicalDevice` is still `VK_NULL_HANDLE`. -/
theorem C2_pickPhysicalDevice_no_discrete_gpu_witness :
    (pickPhysicalDevice envNoDiscreteGpu startProcess).1
        = .error (.runtime_error "No suitable device found.") ∧
      (pickPhysicalDevice envNoDiscreteGpu startProcess).2.app = startProcess.app ∧
      (pickPhysicalDevice envNoDiscreteGpu startProcess).2.app.physicalDevice = VK_NULL_HANDLE :=
  C2_pickPhysicalDevice_no_discrete_gpu envNoDiscreteGpu startProcess (by decide)

/-! ## Logical device: claims C5, C10 -/

theorem stdSetOfList_pair (g p : Nat) :
    stdSetOfList [g, p] = if g = p then [g] else if g < p then [g, p] else [p, g] := by
  simp only [stdSetOfList, List.foldl, stdSetInsert]
  by_cases h1 : p < g
  · have h2 : ¬ g = p := by omega
    have h3 : ¬ g < p := by omega
    simp [h1, h2, h3]
  · by_cases h2 : p = g
    · subst h2; simp
    · have h3 : g < p := by omega
      have h4 : ¬ g = p := by omega
      simp [h1, h2, h3, h4]

theorem deviceCreateInfo_queues (env : Env) (g p : Nat) :
    (deviceCreateInfo env g p).pQueueCreateInfos =
      (stdSetOfList [g, p]).map (fun queueFamilyIndex =>
        { queueFamilyIndex := queueFamilyIndex, queueCount := 1, pQueuePriorities := 1 }) ∧
    (deviceCreateInfo env g p).queueCreateInfoCount = (stdSetOfList [g, p]).length % 2 ^ 32 := by
  unfold deviceCreateInfo
  cases env.enableValidationLayers <;> norm_num

theorem createLogicalDevice_of_indices (env : Env) (s : Process) (g p : Nat)
    (h : (findQueueFamilies env s.app.physicalDevice s).1
      = { graphicsFamily := some g, surfaceFamily := some p }) :
    (env.vkCreateDeviceResult s.app.physicalDevice (deviceCreateInfo env g p) ≠ VK_SUCCESS →
      (createLogicalDevice env s).1 = .error (.runtime_error "Failed to create logical device.") ∧
      (createLogicalDevice env s).2.calls =
        (findQueueFamilies env s.app.physicalDevice s).2.calls ++
          [ApiCall.vkCreateDevice s.app.physicalDevice (deviceCreateInfo env g p)]) ∧
    (env.vkCreateDeviceResult s.app.physicalDevice (deviceCreateInfo env g p) = VK_SUCCESS →
      (createLogicalDevice env s).1 = .ok () ∧
      (createLogicalDevice env s).2.calls =
        (findQueueFamilies env s.app.physicalDevice s).2.calls ++
          [ApiCall.vkCreateDevice s.app.physicalDevice (deviceCreateInfo env g p),
           ApiCall.vkGetDeviceQueue env.deviceHandle g 0,
           ApiCall.vkGetDeviceQueue env.deviceHandle p 0]) := by
  unfold createLogicalDevice
  simp only [h, optionalValue]
  constructor
  · intro hr
    simp [hr, Process.call]
  · intro hr
    simp [hr, Process.call]

/-- C5: for the complete indices `g`, `p` that `findQueueFamilies` yields, the
queue-creation records that `createLogicalDevice` passes to `vkCreateDevice`
number as many as there are distinct values among `g` and `p` (1 when equal, 2
when different), their `queueFamilyIndex` fields are pairwise distinct and are
exactly `g` and `p`, and every record has `queueCount` 1 and priority 1.0. -/
theorem C5_createLogicalDevice_queue_records (env : Env) (s : Process) (g p : Nat)
    (h : (findQueueFamilies env s.app.physicalDevice s).1
      = { graphicsFamily := some g, surfaceFamily := some p }) :
    ∃ createInfo later,
      (createLogicalDevice env s).2.calls =
        (findQueueFamilies env s.app.physicalDevice s).2.calls ++
          ApiCall.vkCreateDevice s.app.physicalDevice createInfo :: later ∧
      createInfo.pQueueCreateInfos.length = ({g, p} : Finset Nat).card ∧
      (g = p → createInfo.pQueueCreateInfos.length = 1) ∧
      (g ≠ p → createInfo.pQueueCreateInfos.length = 2) ∧
      createInfo.queueCreateInfoCount = createInfo.pQueueCreateInfos.length ∧
      (createInfo.pQueueCreateInfos.map (fun r => r.queueFamilyIndex)).Nodup ∧
      (∀ x, x ∈ createInfo.pQueueCreateInfos.map (fun r => r.queueFamilyIndex) ↔
        x = g ∨ x = p) ∧
      (∀ r, r ∈ createInfo.pQueueCreateInfos → r.queueCount = 1 ∧ r.pQueuePriorities = 1) := by
  obtain ⟨hfail, hok⟩ := createLogicalDevice_of_indices env s g p h
  obtain ⟨hq, hcount⟩ := deviceCreateInfo_queues env g p
  have hcalls : ∃ later, (createLogicalDevice env s).2.calls =
      (findQueueFamilies env s.app.physicalDevice s).2.calls ++
        ApiCall.vkCreateDevice s.app.physicalDevice (deviceCreateInfo env g p) :: later := by
    by_cases hr : env.vkCreateDeviceResult s.app.physicalDevice (deviceCreateInfo env g p)
        = VK_SUCCESS
    · exact ⟨_, (hok hr).2⟩
    · exact ⟨_, (hfail hr).2⟩
  obtain ⟨later, hlater⟩ := hcalls
  refine ⟨deviceCreateInfo env g p, later, hlater, ?_⟩
  rw [hcount, hq, stdSetOfList_pair]
  by_cases h1 : g = p
  · subst h1
    simp
  · by_cases h2 : g < p
    · simp only [h1, h2, if_false, if_true]
      refine ⟨?_, ?_, ?_, ?_, ?_, ?_, ?_⟩
      · simp [Finset.card_pair h1]
      · intro h; exact h.elim
      · intro _; rfl
      · rfl
      · simp [h1]
      · intro x; simp
      · intro r hr; simp at hr; rcases hr with rfl | rfl <;> exact ⟨rfl, rfl⟩
    · simp only [h1, h2, if_false]
      refine ⟨?_, ?_, ?_, ?_, ?_, ?_, ?_⟩
      · simp [Finset.card_pair h1]
      · intro h; exact h.elim
      · intro _; rfl
      · rfl
      · simp [Ne.symm h1]
      · intro x; simp [or_comm]
      · intro r hr; simp at hr; rcases hr with rfl | rfl <;> exact ⟨rfl, rfl⟩

/-- C5 at a concrete device whose graphics family is 0 and presentation family
is 1: two records, for families 0 and 1. -/
theorem C5_createLogicalDevice_queue_records_witness :
    ∃ createInfo later,
      (createLogicalDevice envSplitFamilies (processWithDevice 1)).2.calls =
        (findQueueFamilies envSplitFamilies 1 (processWithDevice 1)).2.calls ++
          ApiCall.vkCreateDevice 1 createInfo :: later ∧
      createInfo.pQueueCreateInfos.length = ({0, 1} : Finset Nat).card ∧
      (0 = 1 → createInfo.pQueueCreateInfos.length = 1) ∧
      ((0 : Nat) ≠ 1 → createInfo.pQueueCreateInfos.length = 2) ∧
      createInfo.queueCreateInfoCount = createInfo.pQueueCreateInfos.length ∧
      (createInfo.pQueueCreateInfos.map (fun r => r.queueFamilyIndex)).Nodup ∧
      (∀ x, x ∈ createInfo.pQueueCreateInfos.map (fun r => r.queueFamilyIndex) ↔
        x = 0 ∨ x = 1) ∧
      (∀ r, r ∈ createInfo.pQueueCreateInfos → r.queueCount = 1 ∧ r.pQueuePriorities = 1) :=
  C5_createLogicalDevice_queue_records envSplitFamilies (processWithDevice 1) 0 1 (by decide)

/-- C10: after `pickPhysicalDevice` has selected a device, in any process whose
`physicalDevice` is that device, `findQueueFamilies` finds both families, so the
`value()` accesses of `createLogicalDevice` do not throw: `createLogicalDevice`
either succeeds or fails with "Failed to create logical device.". -/
theorem C10_createLogicalDevice_value_access_succeeds (env : Env) (s t : Process)
    (hpick : (pickPhysicalDevice env s).1 = .ok ())
    (hdev : t.app.physicalDevice = (pickPhysicalDevice env s).2.app.physicalDevice) :
    (∃ g p, (findQueueFamilies env t.app.physicalDevice t).1
      = { graphicsFamily := some g, surfaceFamily := some p }) ∧
    (createLogicalDevice env t).1 ≠ .error .bad_optional_access ∧
    ((createLogicalDevice env t).1 = .ok () ∨
      (createLogicalDevice env t).1
        = .error (.runtime_error "Failed to create logical device.")) := by
  have hs := pickPhysicalDevice_spec env s
  cases hf : env.physicalDevices.find? (fun d => decide (fivePredicates env d)) with
  | none =>
    rw [hf] at hs
    rw [hs.1] at hpick
    exact absurd hpick (by simp)
  | some d =>
    rw [hf] at hs
    have hfive : fivePredicates env d := by simpa using List.find?_some hf
    have hd : t.app.physicalDevice = d := by rw [hdev, hs.2]
    have hc := (findQueueFamilies_isComplete_iff env d t).2 hfive.2.2.1
    rw [← hd] at hc
    have hex : ∃ g p, (findQueueFamilies env t.app.physicalDevice t).1
        = { graphicsFamily := some g, surfaceFamily := some p } := by
      cases hres : (findQueueFamilies env t.app.physicalDevice t).1 with
      | mk gf sf =>
        rw [hres] at hc
        simp only [QueueFamilyIndices.isComplete, Bool.and_eq_true,
          Option.isSome_iff_exists] at hc
        obtain ⟨⟨g, rfl⟩, ⟨p, rfl⟩⟩ := hc
        exact ⟨g, p, rfl⟩
    obtain ⟨g, p, hgp⟩ := hex
    obtain ⟨hfail, hok⟩ := createLogicalDevice_of_indices env t g p hgp
    refine ⟨⟨g, p, hgp⟩, ?_, ?_⟩
    · by_cases hr : env.vkCreateDeviceResult t.app.physicalDevice (deviceCreateInfo env g p)
          = VK_SUCCESS
      · rw [(hok hr).1]; simp
      · rw [(hfail hr).1]; simp
    · by_cases hr : env.vkCreateDeviceResult t.app.physicalDevice (deviceCreateInfo env g p)
          = VK_SUCCESS
      · exact Or.inl (hok hr).1
      · exact Or.inr (hfail hr).1

/-- C10 at a concrete host: the device selected from three is device 2, and
`createLogicalDevice`, run in the process that `pickPhysicalDevice` left,
succeeds. -/
theorem C10_createLogicalDevice_value_access_succeeds_witness :
    (createLogicalDevice envThreeDevices
        (pickPhysicalDevice envThreeDevices startProcess).2).1 ≠ .error .bad_optional_access :=
  (C10_createLogicalDevice_value_access_succeeds envThreeDevices startProcess
    (pickPhysicalDevice envThreeDevices startProcess).2 rfl rfl).2.1

/-! ## Instance creation and diagnostics: claims C6, C7 -/

theorem checkValidationLayersSupportedLoop_spec (layers : List CString) :
    ∀ (requested : List CString) (s : Process),
      ((checkValidationLayersSupportedLoop layers requested s).1 = true ↔
        ∀ name, name ∈ requested → name ∈ layers) ∧
      (checkValidationLayersSupportedLoop layers requested s).2.calls = s.calls ∧
      (checkValidationLayersSupportedLoop layers requested s).2.app = s.app := by
  intro requested
  induction requested with
  | nil => intro s; simp [checkValidationLayersSupportedLoop]
  | cons r rest ih =>
    intro s
    by_cases hr : r ∈ layers
    · have hany : layers.any (fun layer => strcmpEqZero r layer) = true := by
        simp only [List.any_eq_true, strcmpEqZero, beq_iff_eq]
        exact ⟨r, hr, rfl⟩
      simp only [checkValidationLayersSupportedLoop, hany, Bool.not_true, Bool.false_eq_true,
        if_false, List.mem_cons, forall_eq_or_imp, hr, true_and]
      exact ih s
    · have hany : layers.any (fun layer => strcmpEqZero r layer) = false := by
        rw [Bool.eq_false_iff]
        intro h
        simp only [List.any_eq_true, strcmpEqZero, beq_iff_eq] at h
        obtain ⟨x, hx, rfl⟩ := h
        exact hr hx
      simp [checkValidationLayersSupportedLoop, hany, hr, Process.writeCerr]

theorem checkValidationLayersSupported_spec (env : Env) (s : Process) :
    ((checkValidationLayersSupported env false s).1 = true ↔
      ∀ name, name ∈ validationLayers → name ∈ env.layers) ∧
    (checkValidationLayersSupported env false s).2.calls =
      s.calls ++ [ApiCall.vkEnumerateInstanceLayerProperties,
        ApiCall.vkEnumerateInstanceLayerProperties] ∧
    (checkValidationLayersSupported env false s).2.app = s.app := by
  have h := checkValidationLayersSupportedLoop_spec env.layers validationLayers
    ((s.call .vkEnumerateInstanceLayerProperties).call .vkEnumerateInstanceLayerProperties)
  simp only [checkValidationLayersSupported, Bool.false_eq_true, if_false]
  refine ⟨h.1, ?_, ?_⟩
  · rw [h.2.1]; simp [Process.call]
  · rw [h.2.2]; rfl

/-- C6: with diagnostics enabled, `createInstance` fails with
"Validation Layers requeted but not supported." exactly when some name of
`validationLayers` is absent from the host's layer list; in that case the only
calls it has made are the two layer enumerations (no extension query, no
`vkCreateInstance`) and the application object, in particular its instance
handle, is as before. -/
theorem C6_createInstance_unsupported_layer (env : Env) (s : Process)
    (hen : env.enableValidationLayers = true) :
    ((createInstance env s).1
        = .error (.runtime_error "Validation Layers requeted but not supported.") ↔
      ∃ name, name ∈ validationLayers ∧ name ∉ env.layers) ∧
    ((∃ name, name ∈ validationLayers ∧ name ∉ env.layers) →
      (createInstance env s).2.calls =
        s.calls ++ [ApiCall.vkEnumerateInstanceLayerProperties,
          ApiCall.vkEnumerateInstanceLayerProperties] ∧
      (∀ c, c ∈ (createInstance env s).2.calls → c ∉ s.calls →
        c ≠ ApiCall.vkEnumerateInstanceExtensionProperties ∧
          ∀ createInfo, c ≠ ApiCall.vkCreateInstance createInfo) ∧
      (createInstance env s).2.app = s.app) := by
  obtain ⟨hiff, hcalls, happ⟩ := checkValidationLayersSupported_spec env s
  by_cases hsup : (checkValidationLayersSupported env false s).1 = true
  · have hall := hiff.1 hsup
    have hno : ¬ ∃ name, name ∈ validationLayers ∧ name ∉ env.layers := by
      rintro ⟨name, hn, hnot⟩
      exact hnot (hall name hn)
    refine ⟨⟨?_, fun h => absurd h hno⟩, fun h => absurd h hno⟩
    intro herr
    exfalso
    revert herr
    simp only [createInstance, hen, if_true, hsup, Bool.not_true, Bool.false_eq_true, if_false]
    split_ifs <;> simp
  · have hex : ∃ name, name ∈ validationLayers ∧ name ∉ env.layers := by
      by_contra hcon
      apply hsup
      apply hiff.2
      intro name hn
      by_contra hnot
      exact hcon ⟨name, hn, hnot⟩
    have hf : (checkValidationLayersSupported env false s).1 = false := by simpa using hsup
    have hres : createInstance env s =
        (.error (.runtime_error "Validation Layers requeted but not supported."),
          (checkValidationLayersSupported env false s).2) := by
      simp only [createInstance, hen, if_true, hf, Bool.not_false]
    rw [hres]
    refine ⟨⟨fun _ => hex, fun _ => rfl⟩, fun _ => ⟨hcalls, ?_, happ⟩⟩
    intro c hc hnew
    simp only at hc
    rw [hcalls] at hc
    simp only [List.mem_append, List.mem_cons, List.mem_singleton, List.not_mem_nil,
      or_false, or_self] at hc
    rcases hc with hc | rfl
    · exact absurd hc hnew
    · exact ⟨by simp, fun _ => by simp⟩

/-- C6 at a concrete host whose layer list lacks
`VK_LAYER_KHRONOS_validation`: only the two layer enumerations are called and
the instance handle is untouched. -/
theorem C6_createInstance_unsupported_layer_witness :
    (createInstance envNoValidationLayer startProcess).1
        = .error (.runtime_error "Validation Layers requeted but not supported.") ∧
      (createInstance envNoValidationLayer startProcess).2.calls =
        [ApiCall.vkEnumerateInstanceLayerProperties,
          ApiCall.vkEnumerateInstanceLayerProperties] ∧
      (createInstance envNoValidationLayer startProcess).2.app = startProcess.app :=
  ⟨(C6_createInstance_unsupported_layer envNoValidationLayer startProcess rfl).1.2
      ⟨"VK_LAYER_KHRONOS_validation", by decide, by decide⟩,
    ((C6_createInstance_unsupported_layer envNoValidationLayer startProcess rfl).2
      ⟨"VK_LAYER_KHRONOS_validation", by decide, by decide⟩).1,
    ((C6_createInstance_unsupported_layer envNoValidationLayer startProcess rfl).2
      ⟨"VK_LAYER_KHRONOS_validation", by decide, by decide⟩).2.2⟩

/-- C7: whatever its arguments, `debugCallback` appends the message text (after
the words "Validation Layer: ", and followed by a newline) to the error stream,
makes no call, leaves the application object alone and returns `VK_FALSE`; the
returned value is the same for any other arguments. -/
theorem C7_debugCallback_logs_and_returns_false (messageSeverity messageType : Nat)
    (pCallbackData : VkDebugUtilsMessengerCallbackDataEXT) (pUserData : Handle) (s : Process) :
    (debugCallback messageSeverity messageType pCallbackData pUserData s).1 = VK_FALSE ∧
    (debugCallback messageSeverity messageType pCallbackData pUserData s).2.cerr
      = s.cerr ++ ("Validation Layer: " ++ pCallbackData.pMessage ++ "\n") ∧
    (debugCallback messageSeverity messageType pCallbackData pUserData s).2.calls = s.calls ∧
    (debugCallback messageSeverity messageType pCallbackData pUserData s).2.app = s.app ∧
    (∀ severity2 type2 data2 userData2 s2,
      (debugCallback severity2 type2 data2 userData2 s2).1
        = (debugCallback messageSeverity messageType pCallbackData pUserData s).1) :=
  ⟨rfl, rfl, rfl, rfl, fun _ _ _ _ _ => rfl⟩

/-! ## Life cycle: claim C8 -/

theorem lifecycle_append (xs ys : List ApiCall) :
    lifecycle (xs ++ ys) = lifecycle xs ++ lifecycle ys := by
  simp [lifecycle, List.filterMap_append]

theorem lifecycle_call (s : Process) (c : ApiCall) :
    lifecycle (s.call c).calls = lifecycle s.calls ++ lifecycle [c] := by
  simp [Process.call, lifecycle_append]

theorem findQueueFamilies_lifecycle (env : Env) (pd : Handle) (s : Process) :
    lifecycle (findQueueFamilies env pd s).2.calls = lifecycle s.calls := by
  obtain ⟨N, _, hs, _⟩ := findQueueFamilies_spec env pd s
  rw [hs]
  simp only [lifecycle_append]
  have : lifecycle ((List.range N).map
      (fun j => ApiCall.vkGetPhysicalDeviceSurfaceSupportKHR pd j s.app.surface)) = [] := by
    simp [lifecycle, List.filterMap_map, Function.comp_def, ApiCall.event]
  rw [this]
  simp [lifecycle, ApiCall.event]

theorem isDeviceSuitable_lifecycle (env : Env) (d : Handle) (s : Process) :
    lifecycle (isDeviceSuitable env d s).2.calls = lifecycle s.calls := by
  have hq := findQueueFamilies_lifecycle env d
    ((s.call (.vkGetPhysicalDeviceProperties d)).call (.vkGetPhysicalDeviceFeatures d))
  unfold isDeviceSuitable
  simp only [reduceCtorEq, if_false]
  by_cases hx : (deviceExtensionsSupported env d (findQueueFamilies env d
      ((s.call (.vkGetPhysicalDeviceProperties d)).call
        (.vkGetPhysicalDeviceFeatures d))).2).1 = true
  · simp only [hx, if_true]
    simp only [supportedSwapChainDetails, deviceExtensionsSupported, lifecycle_call, hq]
    simp [lifecycle, ApiCall.event]
  · simp only [hx, Bool.false_eq_true, if_false]
    simp only [deviceExtensionsSupported, lifecycle_call, hq]
    simp [lifecycle, ApiCall.event]

theorem pickPhysicalDeviceLoop_lifecycle (env : Env) (devices : List Handle) :
    ∀ s : Process, lifecycle (pickPhysicalDeviceLoop env devices s).2.calls = lifecycle s.calls := by
  induction devices with
  | nil => intro s; rfl
  | cons d rest ih =>
    intro s
    have hl := isDeviceSuitable_lifecycle env d s
    rcases hsu : isDeviceSuitable env d s with ⟨r, s1⟩
    rw [hsu] at hl
    simp only at hl
    simp only [pickPhysicalDeviceLoop, hsu]
    rcases r with e | b
    · exact hl
    · cases b
      · simp only; rw [ih s1, hl]
      · exact hl

theorem pickPhysicalDevice_lifecycle (env : Env) (s : Process) :
    lifecycle (pickPhysicalDevice env s).2.calls = lifecycle s.calls := by
  have hl := pickPhysicalDeviceLoop_lifecycle env env.physicalDevices
    ((s.call (.vkEnumeratePhysicalDevices s.app.vkInstance)).call
      (.vkEnumeratePhysicalDevices s.app.vkInstance))
  unfold pickPhysicalDevice
  rcases hlo : pickPhysicalDeviceLoop env env.physicalDevices
    ((s.call (.vkEnumeratePhysicalDevices s.app.vkInstance)).call
      (.vkEnumeratePhysicalDevices s.app.vkInstance)) with ⟨r, s3⟩
  rw [hlo] at hl
  simp only at hl
  simp only [lifecycle_call] at hl
  have hl2 : lifecycle s3.calls = lifecycle s.calls := by
    rw [hl]; simp [lifecycle, ApiCall.event]
  simp only [hlo]
  rcases r with e | b
  · exact hl2
  · cases b <;> exact hl2

theorem checkExtensionsSupportedLoop_calls (available : List CString) :
    ∀ (extensions : List CString) (s : Process),
      (checkExtensionsSupportedLoop available extensions s).2.calls = s.calls := by
  intro extensions
  induction extensions with
  | nil => intro s; rfl
  | cons e rest ih =>
    intro s
    simp only [checkExtensionsSupportedLoop]
    split_ifs
    · rfl
    · exact ih s

theorem checkExtensionsSupported_calls (env : Env) (extensions : List CString) (s : Process) :
    (checkExtensionsSupported env extensions s).2.calls =
      s.calls ++ [ApiCall.vkEnumerateInstanceExtensionProperties,
        ApiCall.vkEnumerateInstanceExtensionProperties] := by
  simp [checkExtensionsSupported, checkExtensionsSupportedLoop_calls, Process.call]

theorem getRequiredExtensions_calls (env : Env) (s : Process) :
    (getRequiredExtensions env s).2.calls
      = s.calls ++ [ApiCall.glfwGetRequiredInstanceExtensions] := by
  unfold getRequiredExtensions
  split_ifs <;> simp [Process.call]

theorem createInstance_lifecycle (env : Env) (s : Process)
    (hok : (createInstance env s).1 = .ok ()) :
    lifecycle (createInstance env s).2.calls
      = lifecycle s.calls ++ [LifecycleEvent.acquire Resource.vulkanInstance] := by
  have hcalls := (checkValidationLayersSupported_spec env s).2.1
  revert hok
  unfold createInstance
  by_cases hen : env.enableValidationLayers = true
  · simp only [hen, if_true]
    by_cases hsup : (checkValidationLayersSupported env false s).1 = true
    · simp only [hsup, Bool.not_true, Bool.false_eq_true, if_false]
      split_ifs with h1 h2
      · simp
      · simp
      · intro _
        simp only [Process.call, checkExtensionsSupported_calls, getRequiredExtensions_calls,
          hcalls, lifecycle_append]
        simp [lifecycle, ApiCall.event]
    · have hf : (checkValidationLayersSupported env false s).1 = false := by simpa using hsup
      simp [hf]
  · have hf : env.enableValidationLayers = false := by simpa using hen
    simp only [hf, Bool.false_eq_true, if_false]
    split_ifs with h1 h2
    · simp
    · simp
    · intro _
      simp only [Process.call, checkExtensionsSupported_calls, getRequiredExtensions_calls,
        lifecycle_append]
      simp [lifecycle, ApiCall.event]

theorem setupDebugMessenger_lifecycle (env : Env) (s : Process)
    (hen : env.enableValidationLayers = true)
    (hok : (setupDebugMessenger env s).1 = .ok ()) :
    lifecycle (setupDebugMessenger env s).2.calls
      = lifecycle s.calls ++ [LifecycleEvent.acquire Resource.messenger] := by
  revert hok
  unfold setupDebugMessenger CreateDebugUtilsMessengerEXT
  simp only [hen, Bool.not_true, Bool.false_eq_true, if_false]
  by_cases hp : env.hasCreateMessengerProc = true
  · simp only [hp, if_true]
    by_cases hr : env.createMessengerResult = VK_SUCCESS
    · simp [hr, Process.call, lifecycle, ApiCall.event]
    · simp [hr]
  · have hf : env.hasCreateMessengerProc = false := by simpa using hp
    simp [hf, VK_ERROR_EXTENSION_NOT_PRESENT, VK_SUCCESS]

theorem createSurface_lifecycle (env : Env) (s : Process)
    (hok : (createSurface env s).1 = .ok ()) :
    lifecycle (createSurface env s).2.calls
      = lifecycle s.calls ++ [LifecycleEvent.acquire Resource.surface] := by
  revert hok
  unfold createSurface
  split_ifs
  · simp
  · intro _; simp [Process.call, lifecycle, ApiCall.event]

theorem createLogicalDevice_lifecycle (env : Env) (s : Process)
    (hok : (createLogicalDevice env s).1 = .ok ()) :
    lifecycle (createLogicalDevice env s).2.calls
      = lifecycle s.calls ++ [LifecycleEvent.acquire Resource.logicalDevice] := by
  have hq := findQueueFamilies_lifecycle env s.app.physicalDevice s
  cases hres : (findQueueFamilies env s.app.physicalDevice s).1 with
  | mk gf sf =>
    cases gf with
    | none =>
      exfalso; revert hok
      simp [createLogicalDevice, hres, optionalValue]
    | some g =>
      cases sf with
      | none =>
        exfalso; revert hok
        simp [createLogicalDevice, hres, optionalValue]
      | some p =>
        obtain ⟨hfail, hsucc⟩ := createLogicalDevice_of_indices env s g p hres
        by_cases hr : env.vkCreateDeviceResult s.app.physicalDevice (deviceCreateInfo env g p)
            = VK_SUCCESS
        · rw [(hsucc hr).2, lifecycle_append, hq]
          simp [lifecycle, ApiCall.event]
        · rw [(hfail hr).1] at hok
          exact absurd hok (by simp)

theorem initWindow_lifecycle (env : Env) (s : Process) :
    lifecycle (initWindow env s).calls
      = lifecycle s.calls ++
        [LifecycleEvent.acquire Resource.platform, LifecycleEvent.acquire Resource.window] := by
  simp [initWindow, Process.call, lifecycle, ApiCall.event]

theorem mainLoopFrom_lifecycle (n : Nat) :
    ∀ s : Process, lifecycle (mainLoopFrom n s).calls = lifecycle s.calls := by
  induction n with
  | zero => intro s; simp [mainLoopFrom, Process.call, lifecycle, ApiCall.event]
  | succ n ih =>
    intro s
    simp only [mainLoopFrom]
    rw [ih]
    simp [Process.call, lifecycle, ApiCall.event]

theorem cleanup_lifecycle (env : Env) (s : Process)
    (hen : env.enableValidationLayers = true) (hproc : env.hasDestroyMessengerProc = true) :
    lifecycle (cleanup env s).calls
      = lifecycle s.calls ++
        [LifecycleEvent.release Resource.messenger, LifecycleEvent.release Resource.logicalDevice,
         LifecycleEvent.release Resource.surface, LifecycleEvent.release Resource.vulkanInstance,
         LifecycleEvent.release Resource.window, LifecycleEvent.release Resource.platform] := by
  simp [cleanup, DestroyDebugUtilsMessengerEXT, hen, hproc, Process.call, lifecycle,
    ApiCall.event]

theorem initVulkan_lifecycle (env : Env) (s : Process)
    (hen : env.enableValidationLayers = true)
    (hok : (initVulkan env s).1 = .ok ()) :
    lifecycle (initVulkan env s).2.calls
      = lifecycle s.calls ++
        [LifecycleEvent.acquire Resource.vulkanInstance, LifecycleEvent.acquire Resource.messenger,
         LifecycleEvent.acquire Resource.surface, LifecycleEvent.acquire Resource.logicalDevice] := by
  revert hok
  unfold initVulkan
  rcases h1 : createInstance env s with ⟨r1, s1⟩
  rcases r1 with e | u
  · simp
  simp only []
  rcases h2 : setupDebugMessenger env s1 with ⟨r2, s2⟩
  rcases r2 with e | u
  · simp
  simp only []
  rcases h3 : createSurface env s2 with ⟨r3, s3⟩
  rcases r3 with e | u
  · simp
  simp only []
  rcases h4 : pickPhysicalDevice env s3 with ⟨r4, s4⟩
  rcases r4 with e | u
  · simp
  simp only
  intro hok
  have l1 := createInstance_lifecycle env s (by rw [h1])
  have l2 := setupDebugMessenger_lifecycle env s1 hen (by rw [h2])
  have l3 := createSurface_lifecycle env s2 (by rw [h3])
  have l4 := pickPhysicalDevice_lifecycle env s3
  have l5 := createLogicalDevice_lifecycle env s4 hok
  rw [h1] at l1
  rw [h2] at l2
  rw [h3] at l3
  rw [h4] at l4
  simp only at l1 l2 l3 l4
  rw [l5, l4, l3, l2, l1]
  simp

theorem acquisitions_of_lifecycle (xs ys : List ApiCall) (es : List LifecycleEvent)
    (h : lifecycle xs = lifecycle ys ++ es) :
    acquisitions xs = acquisitions ys ++ es.filterMap (fun e =>
      match e with
      | .acquire r => some r
      | .release _ => none) := by
  simp [acquisitions, h, List.filterMap_append]

theorem releaseOrder_of_lifecycle (xs ys : List ApiCall) (es : List LifecycleEvent)
    (h : lifecycle xs = lifecycle ys ++ es) :
    releaseOrder xs = releaseOrder ys ++ es.filterMap (fun e =>
      match e with
      | .acquire _ => none
      | .release r => some r) := by
  simp [releaseOrder, h, List.filterMap_append]

/-- C8, as stated, fails: on a host where every step succeeds, with diagnostics
enabled, `run` acquires platform, window, instance, messenger, surface, logical
device in this order, nothing is released before `cleanup`, and `cleanup`
releases messenger, logical device, surface, instance, window, platform: the
messenger comes first, not between surface and instance, so the release
sequence is not the reverse of the acquisition sequence. -/
theorem C8_counterexample_messenger_released_first :
    envSplitFamilies.enableValidationLayers = true ∧
      (run envSplitFamilies startProcess).1 = .ok () ∧
      acquisitions (run envSplitFamilies startProcess).2.calls
        = [Resource.platform, Resource.window, Resource.vulkanInstance, Resource.messenger,
            Resource.surface, Resource.logicalDevice] ∧
      releaseOrder
          (mainLoop envSplitFamilies
            (initVulkan envSplitFamilies (initWindow envSplitFamilies startProcess)).2).calls
        = [] ∧
      releaseOrder (run envSplitFamilies startProcess).2.calls
        = [Resource.messenger, Resource.logicalDevice, Resource.surface, Resource.vulkanInstance,
            Resource.window, Resource.platform] ∧
      releaseOrder (run envSplitFamilies startProcess).2.calls
        ≠ (acquisitions (run envSplitFamilies startProcess).2.calls).reverse := by
  refine ⟨rfl, rfl, ?_, ?_, ?_, ?_⟩ <;> decide

/-- C8 (amended): with diagnostics enabled and the loader providing
`vkDestroyDebugUtilsMessengerEXT`, a run that completes acquires platform,
window, instance, diagnostics messenger, surface and logical device in this
order and then, in `cleanup`, releases diagnostics messenger, logical device,
surface, instance, window, platform in this order: the reverse of the
acquisition order except that the messenger is released first. -/
theorem C8_cleanup_release_order (env : Env) (s : Process)
    (hen : env.enableValidationLayers = true)
    (hproc : env.hasDestroyMessengerProc = true)
    (hrun : (run env s).1 = .ok ()) :
    lifecycle (run env s).2.calls
      = lifecycle s.calls ++
        [LifecycleEvent.acquire Resource.platform, LifecycleEvent.acquire Resource.window,
         LifecycleEvent.acquire Resource.vulkanInstance, LifecycleEvent.acquire Resource.messenger,
         LifecycleEvent.acquire Resource.surface, LifecycleEvent.acquire Resource.logicalDevice,
         LifecycleEvent.release Resource.messenger, LifecycleEvent.release Resource.logicalDevice,
         LifecycleEvent.release Resource.surface, LifecycleEvent.release Resource.vulkanInstance,
         LifecycleEvent.release Resource.window, LifecycleEvent.release Resource.platform] ∧
    acquisitions (run env s).2.calls
      = acquisitions s.calls ++
        [Resource.platform, Resource.window, Resource.vulkanInstance, Resource.messenger,
         Resource.surface, Resource.logicalDevice] ∧
    releaseOrder (run env s).2.calls
      = releaseOrder s.calls ++
        Resource.messenger ::
          ([Resource.platform, Resource.window, Resource.vulkanInstance, Resource.messenger,
            Resource.surface, Resource.logicalDevice].erase Resource.messenger).reverse ∧
    releaseOrder (run env s).2.calls
      = releaseOrder s.calls ++
        [Resource.messenger, Resource.logicalDevice, Resource.surface, Resource.vulkanInstance,
         Resource.window, Resource.platform] := by
  have hlife : lifecycle (run env s).2.calls
      = lifecycle s.calls ++
        [LifecycleEvent.acquire Resource.platform, LifecycleEvent.acquire Resource.window,
         LifecycleEvent.acquire Resource.vulkanInstance, LifecycleEvent.acquire Resource.messenger,
         LifecycleEvent.acquire Resource.surface, LifecycleEvent.acquire Resource.logicalDevice,
         LifecycleEvent.release Resource.messenger, LifecycleEvent.release Resource.logicalDevice,
         LifecycleEvent.release Resource.surface, LifecycleEvent.release Resource.vulkanInstance,
         LifecycleEvent.release Resource.window, LifecycleEvent.release Resource.platform] := by
    rcases hv : initVulkan env (initWindow env s) with ⟨r, s2⟩
    rcases r with e | u
    · simp [run, hv] at hrun
    · simp only [run, hv]
      have l1 := initWindow_lifecycle env s
      have l2 := initVulkan_lifecycle env (initWindow env s) hen (by rw [hv])
      rw [hv] at l2
      simp only at l2
      simp only [mainLoop]
      rw [cleanup_lifecycle env _ hen hproc, mainLoopFrom_lifecycle, l2, l1]
      simp
  refine ⟨hlife, ?_, ?_, ?_⟩
  · rw [acquisitions_of_lifecycle _ _ _ hlife]; rfl
  · rw [releaseOrder_of_lifecycle _ _ _ hlife]; rfl
  · rw [releaseOrder_of_lifecycle _ _ _ hlife]; rfl

/-- C8 (amended) at a concrete host on which every step succeeds. -/
theorem C8_cleanup_release_order_witness :
    releaseOrder (run envSplitFamilies startProcess).2.calls
      = releaseOrder startProcess.calls ++
        [Resource.messenger, Resource.logicalDevice, Resource.surface, Resource.vulkanInstance,
         Resource.window, Resource.platform] :=
  (C8_cleanup_release_order envSplitFamilies startProcess rfl rfl rfl).2.2.2

end Hike
